import Mathlib

/-!
Verification development for the `gl_pipelines` repository: a shallow
embedding of the GPU state-cache layer (`src/cache_impl.rs`), the `Context`
command-application logic (`src/lib.rs`), pipeline construction
(`Pipeline::with_params`), buffer operations (`src/buffer_impl.rs`),
texture upload checks (`src/texture.rs`) and shader creation
(`src/shader_impl.rs`).

Conventions of the embedding:
* Native driver handles (`glow::Buffer`, `glow::Texture`, program and
  shader objects, uniform/attribute locations) are modelled as `Nat`;
  optional handles as `Option Nat`.
* Native GL calls are reified as a `GlCall` trace; operations return the
  updated state paired with the list of native calls they issued.  Pure
  state-setting calls with no claim relevance (enable/disable, blend and
  stencil parameter calls, viewport/scissor) are not traced.
* Rust panics (failed `assert!`/`assert_eq!`, `unwrap` on `None`,
  out-of-range indexing, and debug-mode arithmetic-overflow panics) are
  modelled as `Option.none` / `Except.error`: a `none` result means the
  operation aborts before completing, issuing no further native calls.
* `u32` arithmetic that can wrap (`TextureFormat::size`) is modelled in
  `Nat` with an explicit `% 2^32`; `usize` products (`size_3d`) with
  `% 2^64`.  `i32`/`i64` quantities (strides, offsets, draw parameters)
  are modelled as `Int`.
-/

namespace GlPipelines

/-- OpenGL enum constants used by the source (values from the `glow` crate). -/
def ARRAY_BUFFER : Nat := 34962

def ELEMENT_ARRAY_BUFFER : Nat := 34963

def TEXTURE0 : Nat := 33984

def GL_FLOAT : Nat := 5126

def GL_UNSIGNED_BYTE : Nat := 5121

def GL_UNSIGNED_SHORT : Nat := 5123

def GL_UNSIGNED_INT : Nat := 5125

def GL_TRIANGLES : Nat := 4

def GL_LINES : Nat := 1

/-- `MAX_VERTEX_ATTRIBUTES` from src/lib.rs line 31. -/
def MAX_VERTEX_ATTRIBUTES : Nat := 16

/-- `MAX_SHADERSTAGE_IMAGES` from src/lib.rs line 32. -/
def MAX_SHADERSTAGE_IMAGES : Nat := 12

/-- `IndexType` from src/types_impl.rs lines 467-472. -/
inductive IndexType where
  | byte
  | short
  | int
deriving DecidableEq, Repr

/-- `IndexType::size` (src/types_impl.rs lines 494-500). -/
def IndexType.size : IndexType → Nat
  | .byte => 1
  | .short => 2
  | .int => 4

/-- `From<IndexType> for u32` (src/types_impl.rs lines 474-482). -/
def IndexType.toGl : IndexType → Nat
  | .byte => GL_UNSIGNED_BYTE
  | .short => GL_UNSIGNED_SHORT
  | .int => GL_UNSIGNED_INT

/-- `IndexType::for_type::<T>` keyed by `size_of::<T>()`
(src/types_impl.rs lines 485-492); the wildcard arm panics. -/
def IndexType.for_type (tSize : Nat) : Option IndexType :=
  match tSize with
  | 1 => some .byte
  | 2 => some .short
  | 4 => some .int
  | _ => none

/-- `UniformType` from src/types_impl.rs lines 1-21. -/
inductive UniformType where
  | Float1
  | Float2
  | Float3
  | Float4
  | Int1
  | Int2
  | Int3
  | Int4
  | Mat4
deriving DecidableEq, Repr

/-- `UniformType::size` — byte size (src/types_impl.rs lines 23-38). -/
def UniformType.size : UniformType → Nat
  | .Float1 => 4
  | .Float2 => 8
  | .Float3 => 12
  | .Float4 => 16
  | .Int1 => 4
  | .Int2 => 8
  | .Int3 => 12
  | .Int4 => 16
  | .Mat4 => 64

/-- `VertexFormat` from src/types_impl.rs lines 67-103. -/
inductive VertexFormat where
  | Float1
  | Float2
  | Float3
  | Float4
  | Byte1
  | Byte2
  | Byte3
  | Byte4
  | Short1
  | Short2
  | Short3
  | Short4
  | Int1
  | Int2
  | Int3
  | Int4
  | Mat4
deriving DecidableEq, Repr

/-- `VertexFormat::size` — component count (src/types_impl.rs lines 105-126). -/
def VertexFormat.size : VertexFormat → Int
  | .Float1 => 1
  | .Float2 => 2
  | .Float3 => 3
  | .Float4 => 4
  | .Byte1 => 1
  | .Byte2 => 2
  | .Byte3 => 3
  | .Byte4 => 4
  | .Short1 => 1
  | .Short2 => 2
  | .Short3 => 3
  | .Short4 => 4
  | .Int1 => 1
  | .Int2 => 2
  | .Int3 => 3
  | .Int4 => 4
  | .Mat4 => 16

/-- `VertexFormat::byte_len` (src/types_impl.rs lines 128-148). -/
def VertexFormat.byte_len : VertexFormat → Int
  | .Float1 => 1 * 4
  | .Float2 => 2 * 4
  | .Float3 => 3 * 4
  | .Float4 => 4 * 4
  | .Byte1 => 1
  | .Byte2 => 2
  | .Byte3 => 3
  | .Byte4 => 4
  | .Short1 => 1 * 2
  | .Short2 => 2 * 2
  | .Short3 => 3 * 2
  | .Short4 => 4 * 2
  | .Int1 => 1 * 4
  | .Int2 => 2 * 4
  | .Int3 => 3 * 4
  | .Int4 => 4 * 4
  | .Mat4 => 16 * 4

/-- `VertexFormat::type_` (src/types_impl.rs lines 150-170). -/
def VertexFormat.type_ : VertexFormat → Nat
  | .Float1 => GL_FLOAT
  | .Float2 => GL_FLOAT
  | .Float3 => GL_FLOAT
  | .Float4 => GL_FLOAT
  | .Byte1 => GL_UNSIGNED_BYTE
  | .Byte2 => GL_UNSIGNED_BYTE
  | .Byte3 => GL_UNSIGNED_BYTE
  | .Byte4 => GL_UNSIGNED_BYTE
  | .Short1 => GL_UNSIGNED_SHORT
  | .Short2 => GL_UNSIGNED_SHORT
  | .Short3 => GL_UNSIGNED_SHORT
  | .Short4 => GL_UNSIGNED_SHORT
  | .Int1 => GL_UNSIGNED_INT
  | .Int2 => GL_UNSIGNED_INT
  | .Int3 => GL_UNSIGNED_INT
  | .Int4 => GL_UNSIGNED_INT
  | .Mat4 => GL_FLOAT

/-- `VertexStep` from src/types_impl.rs lines 173-177. -/
inductive VertexStep where
  | PerVertex
  | PerInstance
deriving DecidableEq, Repr

/-- `BufferLayout` from src/types_impl.rs lines 185-190
(`stride`/`step_rate` are `i32`). -/
structure BufferLayout where
  stride : Int
  step_func : VertexStep
  step_rate : Int
deriving DecidableEq, Repr

/-- `VertexAttribute` from src/types_impl.rs lines 202-207. -/
structure VertexAttribute where
  name : String
  format : VertexFormat
  buffer_index : Nat
deriving DecidableEq, Repr

/-- `Equation` from src/types_impl.rs lines 313-324. -/
inductive Equation where
  | Add
  | Subtract
  | ReverseSubtract
deriving DecidableEq, Repr

/-- `BlendValue` from src/types_impl.rs lines 327-333. -/
inductive BlendValue where
  | SourceColor
  | SourceAlpha
  | DestinationColor
  | DestinationAlpha
deriving DecidableEq, Repr

/-- `BlendFactor` from src/types_impl.rs lines 336-343. -/
inductive BlendFactor where
  | Zero
  | One
  | Value (v : BlendValue)
  | OneMinusValue (v : BlendValue)
  | SourceAlphaSaturate
deriving DecidableEq, Repr

/-- `BlendState` from src/types_impl.rs lines 233-238. -/
structure BlendState where
  equation : Equation
  sfactor : BlendFactor
  dfactor : BlendFactor
deriving DecidableEq, Repr

/-- `StencilOp` from src/types_impl.rs lines 284-295. -/
inductive StencilOp where
  | Keep
  | Zero
  | Replace
  | IncrementClamp
  | DecrementClamp
  | Invert
  | IncrementWrap
  | DecrementWrap
deriving DecidableEq, Repr

/-- `CompareFunc` from src/types_impl.rs lines 298-309. -/
inductive CompareFunc where
  | Always
  | Never
  | Less
  | Equal
  | LessOrEqual
  | Greater
  | NotEqual
  | GreaterOrEqual
deriving DecidableEq, Repr

/-- `StencilFaceState` from src/types_impl.rs lines 256-281
(`test_ref : i32`, masks `u32`). -/
structure StencilFaceState where
  fail_op : StencilOp
  depth_fail_op : StencilOp
  pass_op : StencilOp
  test_func : CompareFunc
  test_ref : Int
  test_mask : Nat
  write_mask : Nat
deriving DecidableEq, Repr

/-- `StencilState` from src/types_impl.rs lines 250-254. -/
structure StencilState where
  front : StencilFaceState
  back : StencilFaceState
deriving DecidableEq, Repr

/-- `CullFace` from src/types_impl.rs lines 410-415. -/
inductive CullFace where
  | Nothing
  | Front
  | Back
deriving DecidableEq, Repr

/-- `FrontFaceOrder` from src/types_impl.rs lines 418-422. -/
inductive FrontFaceOrder where
  | Clockwise
  | CounterClockwise
deriving DecidableEq, Repr

/-- `Comparison` from src/types_impl.rs lines 425-435. -/
inductive Comparison where
  | Never
  | Less
  | LessOrEqual
  | Greater
  | GreaterOrEqual
  | Equal
  | NotEqual
  | Always
deriving DecidableEq, Repr

/-- `PrimitiveType` from src/types_impl.rs lines 452-456. -/
inductive PrimitiveType where
  | Triangles
  | Lines
deriving DecidableEq, Repr

/-- `From<PrimitiveType> for u32` (src/types_impl.rs lines 458-465). -/
def PrimitiveType.toGl : PrimitiveType → Nat
  | .Triangles => GL_TRIANGLES
  | .Lines => GL_LINES

/-- `BufferType` from src/types_impl.rs lines 503-507. -/
inductive BufferType where
  | VertexBuffer
  | IndexBuffer
deriving DecidableEq, Repr

/-- `ColorMask` type alias (src/lib.rs line 772). -/
def ColorMask := Bool × Bool × Bool × Bool

instance : DecidableEq ColorMask := by
  unfold ColorMask
  infer_instance

/-- `ShaderType` from src/shader_impl.rs lines 12-16. -/
inductive ShaderType where
  | Vertex
  | Fragment
deriving DecidableEq, Repr

/-- `VertexAttributeInternal` from src/lib.rs lines 736-745. -/
structure VertexAttributeInternal where
  attr_loc : Nat
  size : Int
  type_ : Nat
  offset : Int
  stride : Int
  buffer_index : Nat
  divisor : Int
deriving DecidableEq, Repr

/-- `CachedAttribute` from src/lib.rs lines 774-778.  The source field
`attribute` is renamed `attr` here because `attribute` is a Lean keyword. -/
structure CachedAttribute where
  attr : VertexAttributeInternal
  gl_vbuf : Option Nat
deriving DecidableEq, Repr

/-- Reified native GL calls.  Each constructor corresponds to one `gl.*`
call issued by the source; calls that only set fixed-function state and
are referenced by no claim are not traced. -/
inductive GlCall where
  | bindBuffer (target : Nat) (buffer : Option Nat)
  | activeTexture (unit : Nat)
  | bindTexture (texture : Option Nat)
  | uniform1i (loc : Nat) (value : Int)
  | vertexAttribPointer (index : Nat) (size : Int) (type_ : Nat) (stride : Int) (offset : Int)
  | vertexAttribDivisor (index : Nat) (divisor : Int)
  | enableVertexAttribArray (index : Nat)
  | disableVertexAttribArray (index : Nat)
  | uniformFloat (comps : Nat) (loc : Nat) (wordOffset : Nat) (len : Nat)
  | uniformInt (comps : Nat) (loc : Nat) (wordOffset : Nat) (len : Nat)
  | uniformMat4 (loc : Nat) (wordOffset : Nat) (len : Nat)
  | drawElementsInstanced (prim : Nat) (count : Int) (itype : Nat) (offset : Int) (instances : Int)
  | bindFramebuffer (fb : Option Nat)
  | useProgram (program : Nat)
  | bufferData (target : Nat)
  | bufferSubData (target : Nat)
  | texImage (kind : Nat)
  | texSubImage (kind : Nat)
  | createShader (stage : ShaderType) (handle : Nat)
  | shaderSource (handle : Nat)
  | compileShader (handle : Nat)
  | createProgram (handle : Nat)
  | attachShader (program shader : Nat)
  | linkProgram (program : Nat)
  | deleteShader (handle : Nat)
  | deleteProgram (program : Nat)
deriving DecidableEq, Repr

/-- `GlCache` from src/cache_impl.rs lines 6-23.  The `glow_ctx` handle is
not part of the modelled state; `textures` and `attributes` are the
fixed-size arrays `[_; MAX_SHADERSTAGE_IMAGES]` / `[_; MAX_VERTEX_ATTRIBUTES]`. -/
structure GlCache where
  stored_index_buffer : Option Nat
  stored_index_type : Option IndexType
  stored_vertex_buffer : Option Nat
  stored_texture : Option Nat
  index_buffer : Option Nat
  index_type : Option IndexType
  vertex_buffer : Option Nat
  textures : Fin 12 → Option Nat
  cur_pipeline : Option Nat
  color_blend : Option BlendState
  alpha_blend : Option BlendState
  stencil : Option StencilState
  color_write : ColorMask
  cull_face : CullFace
  attributes : Fin 16 → Option CachedAttribute

/-- `GlCache::bind_buffer` (src/cache_impl.rs lines 26-45): rebind only on
handle change; any target other than `ARRAY_BUFFER` takes the index-buffer
branch, which always stores `index_type`. -/
def GlCache.bind_buffer (c : GlCache) (target : Nat) (buffer : Option Nat)
    (index_type : Option IndexType) : GlCache × List GlCall :=
  if target = ARRAY_BUFFER then
    if c.vertex_buffer ≠ buffer then
      ({ c with vertex_buffer := buffer }, [.bindBuffer target buffer])
    else (c, [])
  else
    if c.index_buffer ≠ buffer then
      ({ c with index_buffer := buffer, index_type := index_type },
        [.bindBuffer target buffer])
    else ({ c with index_type := index_type }, [])

/-- `GlCache::store_buffer_binding` (src/cache_impl.rs lines 47-54). -/
def GlCache.store_buffer_binding (c : GlCache) (target : Nat) : GlCache :=
  if target = ARRAY_BUFFER then
    { c with stored_vertex_buffer := c.vertex_buffer }
  else
    { c with stored_index_buffer := c.index_buffer, stored_index_type := c.index_type }

/-- `GlCache::restore_buffer_binding` (src/cache_impl.rs lines 56-74).
Note it rebinds with `index_type := none` — the saved `stored_index_type`
is never passed back to `bind_buffer`. -/
def GlCache.restore_buffer_binding (c : GlCache) (target : Nat) : GlCache × List GlCall :=
  if target = ARRAY_BUFFER then
    match c.stored_vertex_buffer with
    | some vb =>
      let r := c.bind_buffer target (some vb) none
      ({ r.1 with stored_vertex_buffer := none }, r.2)
    | none => (c, [])
  else
    match c.stored_index_buffer with
    | some ib =>
      let r := c.bind_buffer target (some ib) none
      ({ r.1 with stored_index_buffer := none }, r.2)
    | none => (c, [])

/-- `GlCache::bind_texture` (src/cache_impl.rs lines 76-85): always emits
`active_texture(TEXTURE0 + slot)`, binds only when the cached per-slot
handle differs. -/
def GlCache.bind_texture (c : GlCache) (slot : Fin 12) (texture : Option Nat) :
    GlCache × List GlCall :=
  if c.textures slot ≠ texture then
    ({ c with textures := fun j => if j = slot then texture else c.textures j },
      [.activeTexture (TEXTURE0 + slot.val), .bindTexture texture])
  else (c, [.activeTexture (TEXTURE0 + slot.val)])

/-- `GlCache::store_texture_binding` (src/cache_impl.rs lines 87-89). -/
def GlCache.store_texture_binding (c : GlCache) (slot : Fin 12) : GlCache :=
  { c with stored_texture := c.textures slot }

/-- `GlCache::restore_texture_binding` (src/cache_impl.rs lines 91-93). -/
def GlCache.restore_texture_binding (c : GlCache) (slot : Fin 12) : GlCache × List GlCall :=
  c.bind_texture slot c.stored_texture

/-- `GlCache::clear_buffer_bindings` (src/cache_impl.rs lines 95-101). -/
def GlCache.clear_buffer_bindings (c : GlCache) : GlCache × List GlCall :=
  let r1 := c.bind_buffer ARRAY_BUFFER none none
  let c1 := { r1.1 with vertex_buffer := none }
  let r2 := c1.bind_buffer ELEMENT_ARRAY_BUFFER none none
  ({ r2.1 with index_buffer := none }, r1.2 ++ r2.2)

/-- One iteration of the `clear_texture_bindings` loop
(src/cache_impl.rs lines 104-109). -/
def GlCache.clearTextureStep (acc : GlCache × List GlCall) (ix : Fin 12) :
    GlCache × List GlCall :=
  if (acc.1.textures ix).isSome then
    let r := acc.1.bind_texture ix none
    ({ r.1 with textures := fun j => if j = ix then none else r.1.textures j },
      acc.2 ++ r.2)
  else acc

/-- `GlCache::clear_texture_bindings` (src/cache_impl.rs lines 103-110). -/
def GlCache.clear_texture_bindings (c : GlCache) : GlCache × List GlCall :=
  (List.finRange 12).foldl GlCache.clearTextureStep (c, [])

/-- `Buffer` from src/buffer_impl.rs lines 6-13.  The shared `glow_ctx`
handle is not part of the modelled state. -/
structure Buffer where
  gl_buf : Nat
  buffer_type : BufferType
  size : Nat
  index_type : Option IndexType
deriving DecidableEq, Repr

/-- `gl_buffer_target` (src/buffer_impl.rs lines 134-139). -/
def gl_buffer_target : BufferType → Nat
  | .VertexBuffer => ARRAY_BUFFER
  | .IndexBuffer => ELEMENT_ARRAY_BUFFER

/-- The `store_buffer_binding` / `bind_buffer` / (data upload) /
`restore_buffer_binding` sequence shared by `Buffer::immutable`,
`Buffer::stream`, `Buffer::index_stream` (src/buffer_impl.rs lines 29-38,
61-68, 85-92) and `Buffer::update` (lines 113-120).  `uploadCall` is the
`buffer_data` / `buffer_sub_data` call issued between bind and restore. -/
def storeBindRestore (c : GlCache) (target : Nat) (handle : Nat)
    (itype : Option IndexType) (uploadCall : GlCall) : GlCache × List GlCall :=
  let c0 := c.store_buffer_binding target
  let r1 := c0.bind_buffer target (some handle) itype
  let r2 := r1.1.restore_buffer_binding target
  (r2.1, r1.2 ++ [uploadCall] ++ r2.2)

/-- Cache effect of `Buffer::immutable` / `Buffer::stream` /
`Buffer::index_stream` (src/buffer_impl.rs lines 16-101): `handle` is the
driver-chosen fresh buffer object and `itype` the `index_type` argument
the creation path passes to `bind_buffer` (`immutable` passes the
computed element type, the two stream constructors pass `None`). -/
def bufferCreateCache (c : GlCache) (target : Nat) (handle : Nat)
    (itype : Option IndexType) : GlCache × List GlCall :=
  storeBindRestore c target handle itype (.bufferData target)

/-- `Buffer::update` (src/buffer_impl.rs lines 103-121).  The generic
element type `T` is represented by its byte size `tSize`; `count` is the
slice length, so `mem::size_of_val(data) = tSize * count`.  `none` models
a failed assertion. -/
def Buffer.update (b : Buffer) (c : GlCache) (tSize count : Nat) :
    Option (GlCache × List GlCall) :=
  let checkedIndex :
      Option Unit :=
    if b.buffer_type = .IndexBuffer then
      match b.index_type, IndexType.for_type tSize with
      | some it, some it' => if it = it' then some () else none
      | _, _ => none
    else some ()
  match checkedIndex with
  | none => none
  | some _ =>
    let size := tSize * count
    if size ≤ b.size then
      some (storeBindRestore c (gl_buffer_target b.buffer_type) b.gl_buf
        b.index_type (.bufferSubData (gl_buffer_target b.buffer_type)))
    else none

/-- `ShaderUniform` from src/shader_impl.rs lines 67-72 (`array_count` is
an `i32` cast from the declared `usize`; the source only ever stores
nonnegative counts, modelled as `Nat`). -/
structure ShaderUniform where
  gl_loc : Option Nat
  uniform_type : UniformType
  array_count : Nat
deriving DecidableEq, Repr

/-- `ShaderInternal` from src/shader_impl.rs lines 74-78; `images` holds
each `ShaderImage.gl_loc`. -/
structure ShaderInternal where
  program : Nat
  images : List (Option Nat)
  uniforms : List ShaderUniform
deriving DecidableEq, Repr

/-- `PipelineParams` from src/lib.rs lines 574-586.  The field
`depth_write_offset : Option<(f32, f32)>` is never read anywhere in the
source and is omitted (floating point). -/
structure PipelineParams where
  cull_face : CullFace
  front_face_order : FrontFaceOrder
  depth_test : Comparison
  depth_write : Bool
  color_blend : Option BlendState
  alpha_blend : Option BlendState
  stencil_test : Option StencilState
  color_write : ColorMask
  primitive_type : PrimitiveType

/-- `Default for PipelineParams` (src/lib.rs lines 591-606). -/
def PipelineParams.default : PipelineParams :=
  { cull_face := .Nothing
    front_face_order := .CounterClockwise
    depth_test := .Always
    depth_write := false
    color_blend := none
    alpha_blend := none
    stencil_test := none
    color_write := (true, true, true, true)
    primitive_type := .Triangles }

/-- `PipelineInternal` from src/lib.rs lines 747-751; `shaderIdx` is the
`Shader(usize)` handle. -/
structure PipelineInternal where
  layout : List (Option VertexAttributeInternal)
  shaderIdx : Nat
  params : PipelineParams

/-- The native upload call issued for one uniform
(src/lib.rs lines 406-438).  Mirrors the source arm for arm; note the
`Int4` arm of the source calls `uniform_3_i32_slice` (line 429). -/
def emitUniform (t : UniformType) (arrayCount : Nat) (loc : Nat) (offset : Nat) : GlCall :=
  match t with
  | .Float1 => .uniformFloat 1 loc offset arrayCount
  | .Float2 => .uniformFloat 2 loc offset (arrayCount * 2)
  | .Float3 => .uniformFloat 3 loc offset (arrayCount * 3)
  | .Float4 => .uniformFloat 4 loc offset (arrayCount * 4)
  | .Int1 => .uniformInt 1 loc offset arrayCount
  | .Int2 => .uniformInt 2 loc offset (arrayCount * 2)
  | .Int3 => .uniformInt 3 loc offset (arrayCount * 3)
  | .Int4 => .uniformInt 3 loc offset (arrayCount * 4)
  | .Mat4 => .uniformMat4 loc offset (arrayCount * 16)

/-- The per-uniform loop of `Context::apply_uniforms_from_bytes`
(src/lib.rs lines 389-442).  `offset` is the running 4-byte-word offset
(`usize`), `size` the byte size of the caller's struct.  The source
assertion is `offset <= size - uniform.uniform_type.size() / 4` on
`usize`; under debug semantics the subtraction panics when it would go
negative, so the whole guard is modelled as the `Int` comparison
`offset ≤ size - wordSize` (false exactly when the assert or the
subtraction panics), and a failed guard aborts with `none`. -/
def applyUniformsLoop : List ShaderUniform → Nat → Nat → Option (List GlCall)
  | [], _, _ => some []
  | u :: rest, offset, size =>
    if (offset : Int) ≤ (size : Int) - (u.uniform_type.size / 4 : Nat) then
      let calls :=
        match u.gl_loc with
        | none => []
        | some loc => [emitUniform u.uniform_type u.array_count loc offset]
      (applyUniformsLoop rest (offset + u.uniform_type.size / 4 * u.array_count) size).map
        (fun cs => calls ++ cs)
    else none

/-- Total declared byte size of a uniform list: sum over uniforms of
`UniformType::size * array_count` (the spec's notion of the uniform
block's byte size). -/
def uniformsByteSize (us : List ShaderUniform) : Nat :=
  (us.map (fun u => u.uniform_type.size * u.array_count)).sum

/-- `Context` from src/lib.rs lines 34-43.  `window_size`, `dpi` and the
render-pass table are referenced by no claim and omitted; the shader and
pipeline tables and the cache are modelled in full. -/
structure Context where
  shaders : List ShaderInternal
  pipelines : List PipelineInternal
  default_framebuffer : Option Nat
  cache : GlCache

/-- Cache effect of `Context::set_cull_face` (src/lib.rs lines 157-178);
the native enable/disable calls are untraced. -/
def setCullFaceCache (c : GlCache) (cull_face : CullFace) : GlCache :=
  if c.cull_face = cull_face then c else { c with cull_face := cull_face }

/-- Cache effect of `Context::set_color_write` (src/lib.rs lines 180-189). -/
def setColorWriteCache (c : GlCache) (m : ColorMask) : GlCache :=
  if c.color_write = m then c else { c with color_write := m }

/-- Cache effect of `Context::set_blend` (src/lib.rs lines 191-237);
`none` models the `panic!("AlphaBlend without ColorBlend")` on line 193. -/
def setBlendCache (c : GlCache) (color_blend alpha_blend : Option BlendState) :
    Option GlCache :=
  if color_blend.isNone ∧ alpha_blend.isSome then none
  else if c.color_blend = color_blend ∧ c.alpha_blend = alpha_blend then some c
  else some { c with color_blend := color_blend, alpha_blend := alpha_blend }

/-- Cache effect of `Context::set_stencil` (src/lib.rs lines 239-287). -/
def setStencilCache (c : GlCache) (stencil_test : Option StencilState) : GlCache :=
  if c.stencil = stencil_test then c else { c with stencil := stencil_test }

/-- `Context::apply_pipeline` (src/lib.rs lines 111-155): records the
pipeline as current in the cache (before indexing the pipeline table,
as the source does), sets the program, then routes cull/blend/stencil/
color-write through their diffing setters. -/
def Context.apply_pipeline (ctx : Context) (p : Nat) : Option (Context × List GlCall) :=
  let ctx1 := { ctx with cache := { ctx.cache with cur_pipeline := some p } }
  match ctx1.pipelines.get? p with
  | none => none
  | some pip =>
    match ctx1.shaders.get? pip.shaderIdx with
    | none => none
    | some shader =>
      let c1 := setCullFaceCache ctx1.cache pip.params.cull_face
      match setBlendCache c1 pip.params.color_blend pip.params.alpha_blend with
      | none => none
      | some c2 =>
        let c3 := setStencilCache c2 pip.params.stencil_test
        let c4 := setColorWriteCache c3 pip.params.color_write
        some ({ ctx1 with cache := c4 }, [.useProgram shader.program])

/-- `Bindings` from src/lib.rs lines 753-758; `images` holds each
texture's optional native handle (`Texture.texture`). -/
structure Bindings where
  vertex_buffers : List Buffer
  index_buffer : Buffer
  images : List (Option Nat)

/-- The per-image loop of `Context::apply_bindings`
(src/lib.rs lines 307-318): for each shader image slot `n` the bindings
image is looked up (panic if the list is shorter), and when the driver
reported a sampler location the texture is bound and the slot index
uploaded. -/
def bindImagesLoop : List (Option Nat) → List (Option Nat) → Nat → GlCache →
    Option (GlCache × List GlCall)
  | [], _, _, c => some (c, [])
  | si :: rest, bImages, n, c =>
    match bImages.get? n with
    | none => none
    | some tex =>
      match si with
      | some loc =>
        if h : n < 12 then
          let r := c.bind_texture ⟨n, h⟩ tex
          (bindImagesLoop rest bImages (n + 1) r.1).map
            (fun rc => (rc.1, r.2 ++ [.uniform1i loc (n : Int)] ++ rc.2))
        else none
      | none => bindImagesLoop rest bImages (n + 1) c

/-- The skip test of the attribute loop (src/lib.rs lines 336-344):
native pointer setup is skipped only when the cached attribute descriptor
and the cached source-buffer handle both match. -/
def attrNeedsSetup (cached : Option CachedAttribute) (a : VertexAttributeInternal)
    (vb : Buffer) : Bool :=
  match cached with
  | none => true
  | some ca =>
    if a ≠ ca.attr then true
    else
      match ca.gl_vbuf with
      | none => true
      | some g => g ≠ vb.gl_buf

/-- The per-attribute-slot loop of `Context::apply_bindings`
(src/lib.rs lines 328-378), iterated over slots `0..MAX_VERTEX_ATTRIBUTES`. -/
def applyAttrLoop (pipLayout : List (Option VertexAttributeInternal)) (vbs : List Buffer) :
    List (Fin 16) → GlCache → Option (GlCache × List GlCall)
  | [], c => some (c, [])
  | i :: rest, c =>
    match pipLayout.get? i.val with
    | some (some a) =>
      match vbs.get? a.buffer_index with
      | none => none
      | some vb =>
        if attrNeedsSetup (c.attributes i) a vb then
          let r := c.bind_buffer ARRAY_BUFFER (some vb.gl_buf) vb.index_type
          let c' := { r.1 with
            attributes := fun j => if j = i then some ⟨a, some vb.gl_buf⟩ else r.1.attributes j }
          let calls := r.2 ++
            [.vertexAttribPointer i.val a.size a.type_ a.stride a.offset,
             .vertexAttribDivisor i.val a.divisor,
             .enableVertexAttribArray i.val]
          (applyAttrLoop pipLayout vbs rest c').map (fun rc => (rc.1, calls ++ rc.2))
        else applyAttrLoop pipLayout vbs rest c
    | _ =>
      if (c.attributes i).isSome then
        let c' := { c with attributes := fun j => if j = i then none else c.attributes j }
        (applyAttrLoop pipLayout vbs rest c').map
          (fun rc => (rc.1, .disableVertexAttribArray i.val :: rc.2))
      else applyAttrLoop pipLayout vbs rest c

/-- `Context::apply_bindings` (src/lib.rs lines 301-379). -/
def Context.apply_bindings (ctx : Context) (b : Bindings) : Option (Context × List GlCall) :=
  match ctx.cache.cur_pipeline with
  | none => none
  | some p =>
    match ctx.pipelines.get? p with
    | none => none
    | some pip =>
      match ctx.shaders.get? pip.shaderIdx with
      | none => none
      | some shader =>
        match bindImagesLoop shader.images b.images 0 ctx.cache with
        | none => none
        | some (c1, calls1) =>
          match applyAttrLoop pip.layout b.vertex_buffers (List.finRange 16)
              ((c1.bind_buffer ELEMENT_ARRAY_BUFFER (some b.index_buffer.gl_buf)
                b.index_buffer.index_type).1) with
          | none => none
          | some (c2, calls2) =>
            some ({ ctx with cache := c2 },
              calls1 ++ (c1.bind_buffer ELEMENT_ARRAY_BUFFER (some b.index_buffer.gl_buf)
                b.index_buffer.index_type).2 ++ calls2)

/-- `Context::apply_uniforms_from_bytes` (src/lib.rs lines 385-443);
`size` is `mem::size_of::<U>()` for the struct the caller passed. -/
def Context.apply_uniforms_from_bytes (ctx : Context) (size : Nat) : Option (List GlCall) :=
  match ctx.cache.cur_pipeline with
  | none => none
  | some p =>
    match ctx.pipelines.get? p with
    | none => none
    | some pip =>
      match ctx.shaders.get? pip.shaderIdx with
      | none => none
      | some shader => applyUniformsLoop shader.uniforms 0 size

/-- `Context::end_render_pass` (src/lib.rs lines 524-533): rebinds the
default framebuffer and clears the two buffer bindings through
`bind_buffer`; the texture cache is untouched. -/
def Context.end_render_pass (ctx : Context) : Context × List GlCall :=
  let r1 := ctx.cache.bind_buffer ARRAY_BUFFER none none
  let r2 := r1.1.bind_buffer ELEMENT_ARRAY_BUFFER none none
  ({ ctx with cache := r2.1 }, .bindFramebuffer ctx.default_framebuffer :: (r1.2 ++ r2.2))

/-- `Context::commit_frame` (src/lib.rs lines 535-538). -/
def Context.commit_frame (ctx : Context) : Context × List GlCall :=
  let r1 := ctx.cache.clear_buffer_bindings
  let r2 := r1.1.clear_texture_bindings
  ({ ctx with cache := r2.1 }, r1.2 ++ r2.2)

/-- `Context::draw` (src/lib.rs lines 540-559): `none` models the failed
assertion "Drawing without any binded pipeline", the pipeline-table index
panic, or the `expect("Unset index buffer type")`.  On success exactly
one instanced indexed draw is issued, with index-buffer byte offset
`index_type.size() as i32 * base_element`. -/
def Context.draw (ctx : Context) (base_element num_elements num_instances : Int) :
    Option GlCall :=
  match ctx.cache.cur_pipeline with
  | none => none
  | some p =>
    match ctx.pipelines.get? p with
    | none => none
    | some pip =>
      match ctx.cache.index_type with
      | none => none
      | some index_type =>
        some (.drawElementsInstanced pip.params.primitive_type.toGl num_elements
          index_type.toGl ((index_type.size : Int) * base_element) num_instances)

/-- `TextureKind` from src/texture.rs lines 62-68. -/
inductive TextureKind where
  | Texture2D
  | Texture3D
  | Texture2DArray
deriving DecidableEq, Repr

/-- Numeric tag distinguishing the three native texture targets a
`tex_image` / `tex_sub_image` call can address (2D, 3D, 2D-array). -/
def TextureKind.code : TextureKind → Nat
  | .Texture2D => 0
  | .Texture3D => 1
  | .Texture2DArray => 2

/-- `TextureFormat` from src/texture.rs lines 72-79. -/
inductive TextureFormat where
  | RGB8
  | RGBA8
  | Depth
  | Alpha
deriving DecidableEq, Repr

/-- `TextureWrap` from src/texture.rs lines 130-138. -/
inductive TextureWrap where
  | Repeat
  | Mirror
  | Clamp
deriving DecidableEq, Repr

/-- `FilterMode` from src/texture.rs lines 140-144. -/
inductive FilterMode where
  | Linear
  | Nearest
deriving DecidableEq, Repr

/-- The per-pixel byte multiplier of `TextureFormat::size` / `size_3d`
(the `3 / 4 / 2 / 1` factors of src/texture.rs lines 96-102 and 106-112),
factored out for use in restatements of the length invariant. -/
def TextureFormat.bytesPerPixel : TextureFormat → Nat
  | .RGB8 => 3
  | .RGBA8 => 4
  | .Depth => 2
  | .Alpha => 1

/-- `TextureFormat::size` (src/texture.rs lines 95-103): the `u32`
products `width * height` and `factor * square` wrap modulo `2^32`. -/
def TextureFormat.size (f : TextureFormat) (width height : Nat) : Nat :=
  let square := width * height % 4294967296
  f.bytesPerPixel * square % 4294967296

/-- `TextureFormat::size_3d` (src/texture.rs lines 105-113): computed in
`usize`, wrapping modulo `2^64`. -/
def TextureFormat.size_3d (f : TextureFormat) (width height depth : Nat) : Nat :=
  let square := width * height * depth % 18446744073709551616
  f.bytesPerPixel * square % 18446744073709551616

/-- `Texture` from src/texture.rs lines 5-14 (fields `width`/`height`/
`depth` are `u32`, the native handle is optional). -/
structure Texture where
  texture : Option Nat
  width : Nat
  height : Nat
  depth : Nat
  format : TextureFormat
  kind : TextureKind
deriving DecidableEq, Repr

/-- `TextureParams` from src/texture.rs lines 154-162. -/
structure TextureParams where
  format : TextureFormat
  wrap : TextureWrap
  filter : FilterMode
  width : Nat
  height : Nat
  depth : Nat
deriving DecidableEq, Repr

/-- `Texture::size` (src/texture.rs lines 597-604): 2D textures use the
2-D format size, 3D and 2D-array textures the depth-aware one. -/
def Texture.sizeBytes (t : Texture) (width height depth : Nat) : Nat :=
  match t.kind with
  | .Texture2D => t.format.size width height
  | .Texture3D => t.format.size_3d width height depth
  | .Texture2DArray => t.format.size_3d width height depth

/-- Reinterpretation of a `u32` value as `i32` (the `as _` casts of
src/texture.rs lines 443-444 and 424-426). -/
def asI32 (n : Nat) : Int :=
  if n % 4294967296 < 2147483648 then ((n % 4294967296 : Nat) : Int)
  else ((n % 4294967296 : Nat) : Int) - 4294967296

/-- Reinterpretation of an `i32` value as `u32` (the `width as _` casts in
`update_texture_part`'s size check, src/texture.rs line 442). -/
def asU32 (i : Int) : Nat := (i % 4294967296).toNat

/-- `Texture::update_texture_part` (src/texture.rs lines 431-555):
asserts the byte length equals the kind-aware size of the updated region
and that the region fits the texture, then temporarily binds the texture
on unit 0 to issue the sub-image upload.  `len` is `bytes.len()`. -/
def Texture.update_texture_part (t : Texture) (c : GlCache)
    (x_offset y_offset _z_offset width height depth : Int) (len : Nat) :
    Option (GlCache × List GlCall) :=
  if t.sizeBytes (asU32 width) (asU32 height) (asU32 depth) ≠ len then none
  else if ¬ (x_offset + width ≤ asI32 t.width) then none
  else if ¬ (y_offset + height ≤ asI32 t.height) then none
  else
    let c0 := c.store_texture_binding 0
    let r1 := c0.bind_texture 0 t.texture
    let r2 := r1.1.restore_texture_binding 0
    some (r2.1, r1.2 ++ [.texSubImage t.kind.code] ++ r2.2)

/-- `Texture::update` (src/texture.rs lines 416-429): asserts the byte
length equals the texture's own kind-aware size, then delegates to
`update_texture_part` over the full extent. -/
def Texture.update (t : Texture) (c : GlCache) (len : Nat) :
    Option (GlCache × List GlCall) :=
  if t.sizeBytes t.width t.height t.depth ≠ len then none
  else t.update_texture_part c 0 0 0 (asI32 t.width) (asI32 t.height) (asI32 t.depth) len

/-- `Texture::new` (src/texture.rs lines 170-340): when pixel bytes are
supplied, asserts `params.format.size(params.width, params.height) ==
bytes.len()` — the two-dimensional size, for every `kind` — then creates
and temporarily binds the new texture object to upload.  `bytes` carries
just the byte length of the supplied slice; `handle` is the driver-chosen
texture object. -/
def Texture.new (c : GlCache) (bytes : Option Nat) (params : TextureParams)
    (kind : TextureKind) (handle : Nat) : Option (GlCache × List GlCall × Texture) :=
  let lengthOk : Bool :=
    match bytes with
    | some len => params.format.size params.width params.height == len
    | none => true
  if lengthOk then
    let c0 := c.store_texture_binding 0
    let r1 := c0.bind_texture 0 (some handle)
    let r2 := r1.1.restore_texture_binding 0
    some (r2.1, r1.2 ++ [.texImage kind.code] ++ r2.2,
      { texture := some handle, width := params.width, height := params.height,
        depth := params.depth, format := params.format, kind := kind })
  else none

/-- Cache effect of `Texture::set_filter` (src/texture.rs lines 366-387). -/
def Texture.set_filter (t : Texture) (c : GlCache) : GlCache × List GlCall :=
  let c0 := c.store_texture_binding 0
  let r1 := c0.bind_texture 0 t.texture
  let r2 := r1.1.restore_texture_binding 0
  (r2.1, r1.2 ++ r2.2)

/-- Cache effect of `Texture::resize` (src/texture.rs lines 389-412):
stores and restores the unit-0 binding around a `tex_image_2d` call
(without binding the resized texture itself). -/
def Texture.resizeCache (c : GlCache) : GlCache × List GlCall :=
  let c0 := c.store_texture_binding 0
  let r := c0.restore_texture_binding 0
  (r.1, [.texImage 0] ++ r.2)

/-- `ShaderError` from src/shader_impl.rs lines 18-27.  `FFINulError`
carries a `std::ffi::NulError` payload in the source; the payload is not
modelled (nothing in this crate ever constructs the variant — the `From`
impl on lines 29-33 is its only mention). -/
inductive ShaderError where
  | CompilationError (shader_type : ShaderType) (error_message : String)
  | LinkError (msg : String)
  | FFINulError
deriving DecidableEq, Repr

/-- `UniformDesc` from src/types_impl.rs lines 40-44. -/
structure UniformDesc where
  name : String
  uniform_type : UniformType
  array_count : Nat
deriving DecidableEq, Repr

/-- `ShaderMeta` from src/shader_impl.rs lines 7-10 (with
`UniformBlockLayout` inlined as the list of uniform descriptors). -/
structure ShaderMeta where
  uniforms : List UniformDesc
  images : List String

/-- The driver-side outcomes that shader creation depends on: compile
status and info log per stage, link status and log, the handles returned
by `create_shader` / `create_program`, and the `get_uniform_location`
results for the linked program. -/
structure ShaderDriver where
  vertexOk : Bool
  vertexLog : String
  fragmentOk : Bool
  fragmentLog : String
  linkOk : Bool
  linkLog : String
  vertexHandle : Nat
  fragmentHandle : Nat
  programHandle : Nat
  uniformLoc : String → Option Nat

/-- `load_shader` (src/shader_impl.rs lines 139-161): creates and
compiles one shader object, returning its handle or a
`CompilationError` carrying the stage and the driver's info log.  The
first component is the native-call trace issued up to the return. -/
def load_shader (drv : ShaderDriver) (stage : ShaderType) :
    List GlCall × Except ShaderError Nat :=
  let handle := match stage with | .Vertex => drv.vertexHandle | .Fragment => drv.fragmentHandle
  let ok := match stage with | .Vertex => drv.vertexOk | .Fragment => drv.fragmentOk
  let log := match stage with | .Vertex => drv.vertexLog | .Fragment => drv.fragmentLog
  let calls := [.createShader stage handle, .shaderSource handle, .compileShader handle]
  if ok then (calls, .ok handle)
  else (calls, .error (.CompilationError stage log))

/-- `load_shader_internal` (src/shader_impl.rs lines 89-137): compiles
both stages, links the program; on link failure deletes the two shader
objects (but not the program object) and returns `LinkError`; on success
resolves image and uniform locations, deletes the two shader objects and
returns the assembled `ShaderInternal`. -/
def load_shader_internal (drv : ShaderDriver) (meta : ShaderMeta) :
    List GlCall × Except ShaderError ShaderInternal :=
  let (vc, vr) := load_shader drv .Vertex
  match vr with
  | .error e => (vc, .error e)
  | .ok vs =>
    let (fc, fr) := load_shader drv .Fragment
    match fr with
    | .error e => (vc ++ fc, .error e)
    | .ok fs =>
      let p := drv.programHandle
      let calls := vc ++ fc ++
        [.createProgram p, .attachShader p vs, .attachShader p fs, .linkProgram p]
      if drv.linkOk then
        let images := meta.images.map (fun name => drv.uniformLoc name)
        let uniforms := meta.uniforms.map (fun u =>
          ShaderUniform.mk (drv.uniformLoc u.name) u.uniform_type u.array_count)
        (calls ++ [.useProgram p, .deleteShader vs, .deleteShader fs],
          .ok { program := p, images := images, uniforms := uniforms })
      else
        (calls ++ [.deleteShader vs, .deleteShader fs], .error (.LinkError drv.linkLog))

/-- `Shader::new` (src/shader_impl.rs lines 50-61): on success the built
`ShaderInternal` is appended to the context's shader table and its index
returned; on error the context is unchanged. -/
def Shader.new (ctx : Context) (drv : ShaderDriver) (meta : ShaderMeta) :
    Context × List GlCall × Except ShaderError Nat :=
  let (calls, r) := load_shader_internal drv meta
  match r with
  | .error e => (ctx, calls, .error e)
  | .ok s => ({ ctx with shaders := ctx.shaders ++ [s] }, calls, .ok ctx.shaders.length)

/-- `BufferCacheData` from src/lib.rs lines 625-629 (`stride : i32`,
`offset : i64`). -/
structure BufferCacheData where
  stride : Int
  offset : Int
deriving DecidableEq, Repr

/-- The stride contribution of one attribute (src/lib.rs lines 645-649):
a zero declared buffer stride accumulates attribute byte lengths, a
nonzero one is taken as-is. -/
def newStrideOf (layout : BufferLayout) (cd : BufferCacheData) (f : VertexFormat) : Int :=
  if layout.stride = 0 then cd.stride + f.byte_len else layout.stride

/-- The first loop of `Pipeline::with_params` (src/lib.rs lines 634-652)
with its assertions: after each attribute `assert!(cache.stride <= 255)`.
`none` models a failed assertion or the panic on an out-of-range
`buffer_index`. -/
def computeStridesChecked : List VertexAttribute → List BufferLayout →
    List BufferCacheData → Option (List BufferCacheData)
  | [], _, cache => some cache
  | a :: rest, bufs, cache =>
    match bufs.get? a.buffer_index, cache.get? a.buffer_index with
    | some layout, some cd =>
      if newStrideOf layout cd a.format ≤ 255 then
        computeStridesChecked rest bufs (cache.set a.buffer_index
          { cd with stride := newStrideOf layout cd a.format })
      else none
    | _, _ => none

/-- The same stride accumulation without the `<= 255` assertions — the
"computed per-buffer stride" the claims quantify over.  Attributes whose
`buffer_index` is out of range are skipped here (the checked variant
panics on them). -/
def computeStrides : List VertexAttribute → List BufferLayout →
    List BufferCacheData → List BufferCacheData
  | [], _, cache => cache
  | a :: rest, bufs, cache =>
    match bufs.get? a.buffer_index, cache.get? a.buffer_index with
    | some layout, some cd =>
      computeStrides rest bufs (cache.set a.buffer_index
        { cd with stride := newStrideOf layout cd a.format })
    | _, _ => computeStrides rest bufs cache

/-- Attribute-slot count per format: `Mat4` occupies four consecutive
native locations (src/lib.rs lines 656-662). -/
def VertexFormat.attrSlots : VertexFormat → Nat
  | .Mat4 => 4
  | _ => 1

/-- `attributes_len` (src/lib.rs lines 656-662). -/
def attributesLenOf (attrs : List VertexAttribute) : Nat :=
  (attrs.map (fun a => a.format.attrSlots)).sum

/-- The inner `for i in 0..attributes_count` loop of the second pass of
`Pipeline::with_params` (src/lib.rs lines 693-717): when the attribute
resolved to a native location, row `i` is written at slot `base + i`
(asserting the slot fits the allocated layout); the running buffer offset
advances by the (Mat4-substituted) format's byte length in every
iteration, resolved location or not. -/
def innerLoop (attr_loc : Option Nat) (fmt : VertexFormat) (bi : Nat)
    (divisor stride : Int) :
    Nat → Nat → Int → List (Option VertexAttributeInternal) →
    Option (Int × List (Option VertexAttributeInternal))
  | 0, _, offset, vl => some (offset, vl)
  | count + 1, i, offset, vl =>
    match attr_loc with
    | some base =>
      let l := base + i
      if l < vl.length then
        innerLoop attr_loc fmt bi divisor stride count (i + 1) (offset + fmt.byte_len)
          (vl.set l (some
            { attr_loc := l, size := fmt.size, type_ := fmt.type_, offset := offset,
              stride := stride, buffer_index := bi, divisor := divisor }))
      else none
    | none =>
      innerLoop attr_loc fmt bi divisor stride count (i + 1) (offset + fmt.byte_len) vl

/-- The second pass of `Pipeline::with_params` (src/lib.rs lines 666-718):
per attribute, resolve the native location by name, compute the divisor
from the buffer's step function, substitute `Float4 × 4` for `Mat4`, and
run the inner loop, accumulating the per-buffer offset back into the
buffer cache. -/
def secondLoop (bufs : List BufferLayout) (locs : String → Option Nat) :
    List VertexAttribute → List BufferCacheData → List (Option VertexAttributeInternal) →
    Option (List BufferCacheData × List (Option VertexAttributeInternal))
  | [], cache, vl => some (cache, vl)
  | a :: rest, cache, vl =>
    match cache.get? a.buffer_index, bufs.get? a.buffer_index with
    | some cd, some layout =>
      let attr_loc := locs a.name
      let divisor := if layout.step_func = .PerVertex then 0 else layout.step_rate
      let countFmt : Nat × VertexFormat :=
        if a.format = .Mat4 then (4, .Float4) else (1, a.format)
      match innerLoop attr_loc countFmt.2 a.buffer_index divisor cd.stride
          countFmt.1 0 cd.offset vl with
      | some (newOffset, vl') =>
        secondLoop bufs locs rest (cache.set a.buffer_index { cd with offset := newOffset }) vl'
      | none => none
    | _, _ => none

/-- The layout computation of `Pipeline::with_params`
(src/lib.rs lines 618-724): checked stride pass, then the slot-table
pass.  `locs` abstracts `gl.get_attrib_location(program, name)`. -/
def withParamsLayout (bufs : List BufferLayout) (attrs : List VertexAttribute)
    (locs : String → Option Nat) : Option (List (Option VertexAttributeInternal)) :=
  match computeStridesChecked attrs bufs (List.replicate bufs.length ⟨0, 0⟩) with
  | none => none
  | some cache =>
    match secondLoop bufs locs attrs cache
        (List.replicate (attributesLenOf attrs) none) with
    | none => none
    | some (_, vl) => some vl

/-- `Pipeline::with_params` (src/lib.rs lines 618-728): reads the shader
entry from the context table (panicking when the handle is stale),
computes the layout, pushes the pipeline and returns its handle. -/
def Pipeline.with_params (ctx : Context) (bufs : List BufferLayout)
    (attrs : List VertexAttribute) (locs : String → Option Nat)
    (shaderIdx : Nat) (params : PipelineParams) : Option (Context × Nat) :=
  match ctx.shaders.get? shaderIdx with
  | none => none
  | some _ =>
    match withParamsLayout bufs attrs locs with
    | none => none
    | some vl =>
      some ({ ctx with pipelines := ctx.pipelines ++
        [{ layout := vl, shaderIdx := shaderIdx, params := params }] },
        ctx.pipelines.length)

/-- The cache state a fresh `Context` starts with
(src/lib.rs lines 74-91). -/
def freshCache : GlCache :=
  { stored_index_buffer := none
    stored_index_type := none
    stored_vertex_buffer := none
    stored_texture := none
    index_buffer := none
    index_type := none
    vertex_buffer := none
    textures := fun _ => none
    cur_pipeline := none
    color_blend := none
    alpha_blend := none
    stencil := none
    color_write := (true, true, true, true)
    cull_face := .Nothing
    attributes := fun _ => none }

/-- A fresh `Context` as built by `Context::new_impl`
(src/lib.rs lines 50-93); `fb` is the framebuffer binding read from the
driver at startup. -/
def freshContext (fb : Option Nat) : Context :=
  { shaders := [], pipelines := [], default_framebuffer := fb, cache := freshCache }

/-- The public state-mutating operations of the library, as one step
alphabet for whole-lifetime statements.  Driver-chosen values (fresh
handles, compile/link outcomes, attribute locations) are parameters of
the corresponding operation. -/
inductive Op where
  | applyPipeline (p : Nat)
  | applyBindings (b : Bindings)
  | applyUniforms (size : Nat)
  | beginDefaultPass
  | applyViewport
  | applyScissorRect
  | clear
  | endRenderPass
  | commitFrame
  | draw (base_element num_elements num_instances : Int)
  | setCullFace (cf : CullFace)
  | setBlend (cb ab : Option BlendState)
  | setStencil (s : Option StencilState)
  | setColorWrite (m : ColorMask)
  | bufferNew (target : Nat) (handle : Nat) (itype : Option IndexType)
  | bufferUpdate (b : Buffer) (tSize count : Nat)
  | textureNew (bytes : Option Nat) (params : TextureParams) (kind : TextureKind) (handle : Nat)
  | textureUpdate (t : Texture) (len : Nat)
  | textureUpdatePart (t : Texture) (x y z w h d : Int) (len : Nat)
  | textureSetFilter (t : Texture)
  | textureResize
  | shaderNew (drv : ShaderDriver) (meta : ShaderMeta)
  | pipelineNew (bufs : List BufferLayout) (attrs : List VertexAttribute)
      (locs : String → Option Nat) (shaderIdx : Nat) (params : PipelineParams)

/-- Whether an operation is `apply_pipeline` — the only operation that
writes `cache.cur_pipeline`. -/
def Op.isApplyPipeline : Op → Bool
  | .applyPipeline _ => true
  | _ => false

/-- One public operation applied to the context; `none` when the source
operation panics.  `begin_default_pass` / viewport / scissor / `clear`
only issue untraced fixed-function calls and leave the modelled state
unchanged; `draw` and `apply_uniforms` mutate nothing but can panic. -/
def Context.step (ctx : Context) : Op → Option Context
  | .applyPipeline p => (ctx.apply_pipeline p).map Prod.fst
  | .applyBindings b => (ctx.apply_bindings b).map Prod.fst
  | .applyUniforms size => (ctx.apply_uniforms_from_bytes size).map (fun _ => ctx)
  | .beginDefaultPass => some ctx
  | .applyViewport => some ctx
  | .applyScissorRect => some ctx
  | .clear => some ctx
  | .endRenderPass => some ctx.end_render_pass.1
  | .commitFrame => some ctx.commit_frame.1
  | .draw b n i => (ctx.draw b n i).map (fun _ => ctx)
  | .setCullFace cf => some { ctx with cache := setCullFaceCache ctx.cache cf }
  | .setBlend cb ab => (setBlendCache ctx.cache cb ab).map (fun c => { ctx with cache := c })
  | .setStencil s => some { ctx with cache := setStencilCache ctx.cache s }
  | .setColorWrite m => some { ctx with cache := setColorWriteCache ctx.cache m }
  | .bufferNew target handle itype =>
    some { ctx with cache := (bufferCreateCache ctx.cache target handle itype).1 }
  | .bufferUpdate b tSize count =>
    (b.update ctx.cache tSize count).map (fun r => { ctx with cache := r.1 })
  | .textureNew bytes params kind handle =>
    (Texture.new ctx.cache bytes params kind handle).map (fun r => { ctx with cache := r.1 })
  | .textureUpdate t len => (t.update ctx.cache len).map (fun r => { ctx with cache := r.1 })
  | .textureUpdatePart t x y z w h d len =>
    (t.update_texture_part ctx.cache x y z w h d len).map (fun r => { ctx with cache := r.1 })
  | .textureSetFilter t => some { ctx with cache := (t.set_filter ctx.cache).1 }
  | .textureResize => some { ctx with cache := (Texture.resizeCache ctx.cache).1 }
  | .shaderNew drv meta => some (Shader.new ctx drv meta).1
  | .pipelineNew bufs attrs locs si params =>
    match Pipeline.with_params ctx bufs attrs locs si params with
    | none => none
    | some (ctx', _) => some ctx'

/-- Run a sequence of public operations; `none` as soon as one panics. -/
def Context.run (ctx : Context) : List Op → Option Context
  | [] => some ctx
  | o :: rest =>
    match ctx.step o with
    | none => none
    | some ctx' => ctx'.run rest

/-- The handle `bind_buffer` caches for a target: the vertex-buffer slot
for `ARRAY_BUFFER`, the index-buffer slot for everything else (matching
the `if target == glow::ARRAY_BUFFER` dichotomy of the source). -/
def cachedHandle (c : GlCache) (target : Nat) : Option Nat :=
  if target = ARRAY_BUFFER then c.vertex_buffer else c.index_buffer

/-- One `bind_buffer` request: a target, a handle, an element width. -/
structure BindReq where
  target : Nat
  handle : Option Nat
  itype : Option IndexType

/-- Run a sequence of `bind_buffer` calls on a cache, keeping the final
state. -/
def runBinds (c : GlCache) : List BindReq → GlCache
  | [] => c
  | r :: rest => runBinds (c.bind_buffer r.target r.handle r.itype).1 rest

/-- A context holding one shader whose uniform block is a single
`Float4` at location 0, with a pipeline over it applied — the fixture
for evaluating `apply_uniforms_from_bytes` against an undersized struct. -/
def ctxFloat4 : Context :=
  { shaders := [{ program := 1, images := [], uniforms := [⟨some 0, .Float4, 1⟩] }]
    pipelines := [{ layout := [], shaderIdx := 0, params := PipelineParams.default }]
    default_framebuffer := none
    cache := { freshCache with cur_pipeline := some 0 } }

/-- A context holding one shader whose uniform block is a single `Int4`
at location 7 — the fixture for observing which native upload call the
`Int4` arm issues. -/
def ctxInt4 : Context :=
  { shaders := [{ program := 1, images := [], uniforms := [⟨some 7, .Int4, 1⟩] }]
    pipelines := [{ layout := [], shaderIdx := 0, params := PipelineParams.default }]
    default_framebuffer := none
    cache := { freshCache with cur_pipeline := some 0 } }

/-- A driver on which both stages compile but the program fails to link. -/
def drvLinkFail : ShaderDriver :=
  { vertexOk := true, vertexLog := "", fragmentOk := true, fragmentLog := ""
    linkOk := false, linkLog := "link failed"
    vertexHandle := 1, fragmentHandle := 2, programHandle := 3
    uniformLoc := fun _ => none }

/-- A context with one pipeline applied and an index element width
cached — a state from which `draw` succeeds. -/
def ctxDrawReady : Context :=
  { shaders := [{ program := 1, images := [], uniforms := [] }]
    pipelines := [{ layout := [], shaderIdx := 0, params := PipelineParams.default }]
    default_framebuffer := none
    cache := { freshCache with
      cur_pipeline := some 0
      index_buffer := some 4
      index_type := some .short } }

/-!  ## Helper lemmas about the cache operations  -/

theorem bind_buffer_fst_textures (c : GlCache) (t : Nat) (b : Option Nat)
    (it : Option IndexType) : ((c.bind_buffer t b it).1).textures = c.textures := by
  unfold GlCache.bind_buffer
  split <;> split <;> rfl

theorem bind_buffer_fst_cur_pipeline (c : GlCache) (t : Nat) (b : Option Nat)
    (it : Option IndexType) : ((c.bind_buffer t b it).1).cur_pipeline = c.cur_pipeline := by
  unfold GlCache.bind_buffer
  split <;> split <;> rfl

theorem bind_buffer_fst_index_type_of_ne (c : GlCache) (t : Nat) (b : Option Nat)
    (it : Option IndexType) (h : t ≠ ARRAY_BUFFER) :
    ((c.bind_buffer t b it).1).index_type = it := by
  unfold GlCache.bind_buffer
  rw [if_neg h]
  split <;> rfl

theorem bind_buffer_calls (c : GlCache) (t : Nat) (b : Option Nat)
    (it : Option IndexType) :
    (c.bind_buffer t b it).2 = if cachedHandle c t = b then [] else [.bindBuffer t b] := by
  unfold GlCache.bind_buffer cachedHandle
  by_cases ht : t = ARRAY_BUFFER
  · by_cases hv : c.vertex_buffer = b <;> simp [ht, hv]
  · by_cases hv : c.index_buffer = b <;> simp [ht, hv]

theorem bind_texture_fst_cur_pipeline (c : GlCache) (slot : Fin 12) (tex : Option Nat) :
    ((c.bind_texture slot tex).1).cur_pipeline = c.cur_pipeline := by
  unfold GlCache.bind_texture
  split <;> rfl

theorem bind_texture_fst_buffers (c : GlCache) (slot : Fin 12) (tex : Option Nat) :
    ((c.bind_texture slot tex).1).vertex_buffer = c.vertex_buffer ∧
    ((c.bind_texture slot tex).1).index_buffer = c.index_buffer ∧
    ((c.bind_texture slot tex).1).index_type = c.index_type := by
  unfold GlCache.bind_texture
  split <;> exact ⟨rfl, rfl, rfl⟩

/-!  ## Claim C3  -/

/-- Claim C3: for every sequence of `bind_buffer(target, h, w)` calls on
a fresh cache, a native bind is issued by call `n` iff `h` differs from
the handle the cache holds for that target after the first `n-1` calls
(so repeated identical binds issue exactly one native call, namely the
first), and on any non-`ARRAY_BUFFER` target — in particular the
index-buffer target — the cached index element width is set to `w` on
every call, including calls that issue no native bind. -/
theorem claim_C3_bind_buffer_rebind_iff (pre : List BindReq) (target : Nat)
    (h : Option Nat) (w : Option IndexType) :
    (((runBinds freshCache pre).bind_buffer target h w).2 =
      if cachedHandle (runBinds freshCache pre) target = h then []
      else [.bindBuffer target h]) ∧
    (target ≠ ARRAY_BUFFER →
      (((runBinds freshCache pre).bind_buffer target h w).1).index_type = w) :=
  ⟨bind_buffer_calls _ target h w,
    fun hne => bind_buffer_fst_index_type_of_ne _ target h w hne⟩

/-- Witness for C3 at a concrete input: on a fresh cache, binding handle
5 on the index target issues exactly one native bind and caches the
requested element width; immediately rebinding the same handle issues no
native call but still overwrites the width. -/
theorem claim_C3_witness :
    ((runBinds freshCache []).bind_buffer ELEMENT_ARRAY_BUFFER (some 5) (some .short)).2 =
      [.bindBuffer ELEMENT_ARRAY_BUFFER (some 5)] ∧
    ((runBinds freshCache [⟨ELEMENT_ARRAY_BUFFER, some 5, some .short⟩]).bind_buffer
        ELEMENT_ARRAY_BUFFER (some 5) (some .int)).2 = [] ∧
    ((runBinds freshCache [⟨ELEMENT_ARRAY_BUFFER, some 5, some .short⟩]).bind_buffer
        ELEMENT_ARRAY_BUFFER (some 5) (some .int)).1.index_type = some .int := by
  refine ⟨?_, ?_, ?_⟩
  · have h := (claim_C3_bind_buffer_rebind_iff [] ELEMENT_ARRAY_BUFFER (some 5) (some .short)).1
    rw [h]; decide
  · have h := (claim_C3_bind_buffer_rebind_iff [⟨ELEMENT_ARRAY_BUFFER, some 5, some .short⟩]
      ELEMENT_ARRAY_BUFFER (some 5) (some .int)).1
    rw [h]; decide
  · exact (claim_C3_bind_buffer_rebind_iff [⟨ELEMENT_ARRAY_BUFFER, some 5, some .short⟩]
      ELEMENT_ARRAY_BUFFER (some 5) (some .int)).2 (by decide)

/-!  ## Claim C5  -/

theorem clearTextureStep_textures (acc : GlCache × List GlCall) (ix j : Fin 12) :
    ((GlCache.clearTextureStep acc ix).1).textures j =
      if j = ix then none else acc.1.textures j := by
  unfold GlCache.clearTextureStep GlCache.bind_texture
  by_cases hs : (acc.1.textures ix).isSome
  · rw [if_pos hs]
    have hne : acc.1.textures ix ≠ none := by
      intro he; rw [he] at hs; simp at hs
    simp only [ne_eq, hne, not_false_iff, if_pos]
    by_cases hj : j = ix <;> simp [hj]
  · rw [if_neg hs]
    by_cases hj : j = ix
    · subst hj
      rw [if_pos rfl]
      exact Option.not_isSome_iff_eq_none.mp hs
    · rw [if_neg hj]

theorem clearTextureStep_other (acc : GlCache × List GlCall) (ix : Fin 12) :
    ((GlCache.clearTextureStep acc ix).1).vertex_buffer = acc.1.vertex_buffer ∧
    ((GlCache.clearTextureStep acc ix).1).index_buffer = acc.1.index_buffer ∧
    ((GlCache.clearTextureStep acc ix).1).cur_pipeline = acc.1.cur_pipeline := by
  unfold GlCache.clearTextureStep GlCache.bind_texture
  split
  · split <;> exact ⟨rfl, rfl, rfl⟩
  · exact ⟨rfl, rfl, rfl⟩

theorem clearTextureFold_textures (l : List (Fin 12)) (acc : GlCache × List GlCall)
    (j : Fin 12) (hj : j ∈ l ∨ acc.1.textures j = none) :
    ((l.foldl GlCache.clearTextureStep acc).1).textures j = none := by
  induction l generalizing acc with
  | nil =>
    rcases hj with hj | hj
    · cases hj
    · exact hj
  | cons a l ih =>
    rw [List.foldl_cons]
    refine ih _ ?_
    rcases hj with hj | hj
    · rcases List.mem_cons.mp hj with hja | hjl
      · right
        rw [clearTextureStep_textures, if_pos hja]
      · left; exact hjl
    · right
      rw [clearTextureStep_textures]
      by_cases hja : j = a
      · rw [if_pos hja]
      · rw [if_neg hja]; exact hj

theorem clearTextureFold_other (l : List (Fin 12)) (acc : GlCache × List GlCall) :
    ((l.foldl GlCache.clearTextureStep acc).1).vertex_buffer = acc.1.vertex_buffer ∧
    ((l.foldl GlCache.clearTextureStep acc).1).index_buffer = acc.1.index_buffer ∧
    ((l.foldl GlCache.clearTextureStep acc).1).cur_pipeline = acc.1.cur_pipeline := by
  induction l generalizing acc with
  | nil => exact ⟨rfl, rfl, rfl⟩
  | cons a l ih =>
    rw [List.foldl_cons]
    obtain ⟨h1, h2, h3⟩ := ih (GlCache.clearTextureStep acc a)
    obtain ⟨g1, g2, g3⟩ := clearTextureStep_other acc a
    exact ⟨h1.trans g1, h2.trans g2, h3.trans g3⟩

theorem clear_texture_bindings_textures (c : GlCache) (j : Fin 12) :
    ((c.clear_texture_bindings).1).textures j = none :=
  clearTextureFold_textures _ _ j (Or.inl (List.mem_finRange j))

theorem bind_buffer_ab_fields (c : GlCache) (b : Option Nat) (it : Option IndexType) :
    ((c.bind_buffer ARRAY_BUFFER b it).1).vertex_buffer = b ∧
    ((c.bind_buffer ARRAY_BUFFER b it).1).index_buffer = c.index_buffer ∧
    ((c.bind_buffer ARRAY_BUFFER b it).1).index_type = c.index_type := by
  unfold GlCache.bind_buffer
  rw [if_pos rfl]
  by_cases h : c.vertex_buffer = b
  · rw [if_neg (by simpa using h)]
    exact ⟨h, rfl, rfl⟩
  · rw [if_pos (by simpa using h)]
    exact ⟨rfl, rfl, rfl⟩

theorem bind_buffer_ne_fields (c : GlCache) (t : Nat) (b : Option Nat)
    (it : Option IndexType) (ht : t ≠ ARRAY_BUFFER) :
    ((c.bind_buffer t b it).1).index_buffer = b ∧
    ((c.bind_buffer t b it).1).vertex_buffer = c.vertex_buffer := by
  unfold GlCache.bind_buffer
  rw [if_neg ht]
  by_cases h : c.index_buffer = b
  · rw [if_neg (by simpa using h)]
    exact ⟨h, rfl⟩
  · rw [if_pos (by simpa using h)]
    exact ⟨rfl, rfl⟩

theorem clear_buffer_bindings_fields (c : GlCache) :
    ((c.clear_buffer_bindings).1).vertex_buffer = none ∧
    ((c.clear_buffer_bindings).1).index_buffer = none ∧
    ((c.clear_buffer_bindings).1).textures = c.textures ∧
    ((c.clear_buffer_bindings).1).cur_pipeline = c.cur_pipeline := by
  have e : c.clear_buffer_bindings.1 =
      { (GlCache.bind_buffer
          { (c.bind_buffer ARRAY_BUFFER none none).1 with vertex_buffer := none }
          ELEMENT_ARRAY_BUFFER none none).1 with index_buffer := none } := rfl
  rw [e]
  refine ⟨?_, rfl, ?_, ?_⟩
  · simpa using (bind_buffer_ne_fields
      { (c.bind_buffer ARRAY_BUFFER none none).1 with vertex_buffer := none }
      ELEMENT_ARRAY_BUFFER none none (by decide)).2
  · have h1 := bind_buffer_fst_textures
      { (c.bind_buffer ARRAY_BUFFER none none).1 with vertex_buffer := none }
      ELEMENT_ARRAY_BUFFER none none
    have h2 := bind_buffer_fst_textures c ARRAY_BUFFER none none
    simpa [h1] using h2
  · have h1 := bind_buffer_fst_cur_pipeline
      { (c.bind_buffer ARRAY_BUFFER none none).1 with vertex_buffer := none }
      ELEMENT_ARRAY_BUFFER none none
    have h2 := bind_buffer_fst_cur_pipeline c ARRAY_BUFFER none none
    simpa [h1] using h2

/-- Claim C5: after `commit_frame`, the cached vertex-buffer handle, the
cached index-buffer handle and all `MAX_SHADERSTAGE_IMAGES` cached
per-slot texture handles read as unbound; after `end_render_pass`, the
two buffer handles read as unbound while every cached per-slot texture
handle is unchanged. -/
theorem claim_C5_frame_boundaries_clear_cache (ctx : Context) :
    ((ctx.commit_frame.1.cache.vertex_buffer = none ∧
      ctx.commit_frame.1.cache.index_buffer = none) ∧
      ∀ i : Fin 12, ctx.commit_frame.1.cache.textures i = none) ∧
    ((ctx.end_render_pass.1.cache.vertex_buffer = none ∧
      ctx.end_render_pass.1.cache.index_buffer = none) ∧
      ∀ i : Fin 12, ctx.end_render_pass.1.cache.textures i = ctx.cache.textures i) := by
  constructor
  · constructor
    · unfold Context.commit_frame GlCache.clear_texture_bindings
      constructor
      · exact ((clearTextureFold_other _ _).1).trans (clear_buffer_bindings_fields _).1
      · exact ((clearTextureFold_other _ _).2.1).trans (clear_buffer_bindings_fields _).2.1
    · intro i
      exact clear_texture_bindings_textures _ i
  · unfold Context.end_render_pass
    refine ⟨⟨?_, ?_⟩, ?_⟩
    · exact ((bind_buffer_ne_fields _ ELEMENT_ARRAY_BUFFER none none (by decide)).2).trans
        (bind_buffer_ab_fields ctx.cache none none).1
    · exact (bind_buffer_ne_fields _ ELEMENT_ARRAY_BUFFER none none (by decide)).1
    · intro i
      rw [bind_buffer_fst_textures, bind_buffer_fst_textures]

/-!  ## Claim C10  -/

theorem draw_none_of_no_pipeline (ctx : Context) (h : ctx.cache.cur_pipeline = none)
    (b0 n0 i0 : Int) : ctx.draw b0 n0 i0 = none := by
  unfold Context.draw
  rw [h]

theorem draw_none_of_index_type_none (ctx : Context) (h : ctx.cache.index_type = none)
    (b0 n0 i0 : Int) : ctx.draw b0 n0 i0 = none := by
  unfold Context.draw
  rw [h]
  split
  · rfl
  · split <;> rfl

theorem restore_el_clears_index_type (c : GlCache) (ib : Nat)
    (hst : c.stored_index_buffer = some ib) :
    ((c.restore_buffer_binding ELEMENT_ARRAY_BUFFER).1).index_type = none ∧
    ((c.restore_buffer_binding ELEMENT_ARRAY_BUFFER).1).index_buffer = some ib := by
  unfold GlCache.restore_buffer_binding
  rw [if_neg (show ELEMENT_ARRAY_BUFFER ≠ ARRAY_BUFFER by decide)]
  rw [hst]
  constructor
  · simpa using bind_buffer_fst_index_type_of_ne c ELEMENT_ARRAY_BUFFER (some ib) none (by decide)
  · simpa using (bind_buffer_ne_fields c ELEMENT_ARRAY_BUFFER (some ib) none (by decide)).1

theorem storeBindRestore_el_index_type (c : GlCache) (ib handle : Nat)
    (itArg : Option IndexType) (upload : GlCall) (hib : c.index_buffer = some ib) :
    ((storeBindRestore c ELEMENT_ARRAY_BUFFER handle itArg upload).1).index_type = none := by
  unfold storeBindRestore
  have hst : ((((c.store_buffer_binding ELEMENT_ARRAY_BUFFER)).bind_buffer
      ELEMENT_ARRAY_BUFFER (some handle) itArg).1).stored_index_buffer = some ib := by
    have : (c.store_buffer_binding ELEMENT_ARRAY_BUFFER).stored_index_buffer = some ib := by
      unfold GlCache.store_buffer_binding
      rw [if_neg (show ELEMENT_ARRAY_BUFFER ≠ ARRAY_BUFFER by decide)]
      simpa using hib
    rw [← this]
    unfold GlCache.bind_buffer
    rw [if_neg (show ELEMENT_ARRAY_BUFFER ≠ ARRAY_BUFFER by decide)]
    split <;> rfl
  exact (restore_el_clears_index_type _ ib hst).1

/-- Claim C10: on a cache where an index buffer is bound with a
remembered element width, `store_buffer_binding` followed by
`restore_buffer_binding` on the index target restores the bound handle
but leaves the cached index element width `None` (restore passes `None`
to `bind_buffer`; the saved `stored_index_type` is never written back).
Consequently the store/bind/restore composite that `Buffer::update` and
the buffer-creation paths wrap around their uploads clears the cached
index element width when run on the index target, and a `draw` issued
afterwards, without a fresh `apply_bindings`, fails on the unset width. -/
theorem claim_C10_store_restore_clears_index_width (c : GlCache) (ib : Nat)
    (w : IndexType) (hib : c.index_buffer = some ib) (hw : c.index_type = some w) :
    ((((c.store_buffer_binding ELEMENT_ARRAY_BUFFER).restore_buffer_binding
        ELEMENT_ARRAY_BUFFER).1).index_buffer = some ib ∧
      (((c.store_buffer_binding ELEMENT_ARRAY_BUFFER).restore_buffer_binding
        ELEMENT_ARRAY_BUFFER).1).index_type = none ∧
      (c.store_buffer_binding ELEMENT_ARRAY_BUFFER).stored_index_type = some w) ∧
    (∀ (handle : Nat) (itArg : Option IndexType) (upload : GlCall),
      ((storeBindRestore c ELEMENT_ARRAY_BUFFER handle itArg upload).1).index_type = none) ∧
    (∀ (b : Buffer) (tSize count : Nat) (r : GlCache × List GlCall),
      b.buffer_type = .IndexBuffer → b.update c tSize count = some r →
      r.1.index_type = none ∧
      ∀ (sh : List ShaderInternal) (pl : List PipelineInternal) (fb : Option Nat)
        (b0 n0 i0 : Int), (Context.mk sh pl fb r.1).draw b0 n0 i0 = none) := by
  have hstore : (c.store_buffer_binding ELEMENT_ARRAY_BUFFER).stored_index_buffer = some ib ∧
      (c.store_buffer_binding ELEMENT_ARRAY_BUFFER).stored_index_type = some w := by
    unfold GlCache.store_buffer_binding
    rw [if_neg (show ELEMENT_ARRAY_BUFFER ≠ ARRAY_BUFFER by decide)]
    exact ⟨by simpa using hib, by simpa using hw⟩
  refine ⟨⟨?_, ?_, hstore.2⟩, ?_, ?_⟩
  · exact (restore_el_clears_index_type _ ib hstore.1).2
  · exact (restore_el_clears_index_type _ ib hstore.1).1
  · intro handle itArg upload
    exact storeBindRestore_el_index_type c ib handle itArg upload hib
  · intro b tSize count r hbt hupd
    unfold Buffer.update at hupd
    have hr1 : r.1.index_type = none := by
      rcases hb : b.index_type with _ | it
      · simp [hb, hbt] at hupd
      · rcases hf : IndexType.for_type tSize with _ | it'
        · simp [hb, hf, hbt] at hupd
        · by_cases he : it = it'
          · subst he
            simp [hb, hf, hbt] at hupd
            rw [← hupd.2]
            have := storeBindRestore_el_index_type c ib b.gl_buf (some it)
              (.bufferSubData (gl_buffer_target BufferType.IndexBuffer)) hib
            simpa [gl_buffer_target] using this
          · simp [hb, hf, hbt, he] at hupd
    exact ⟨hr1, fun sh pl fb b0 n0 i0 =>
      draw_none_of_index_type_none (Context.mk sh pl fb r.1) hr1 b0 n0 i0⟩

/-- Witness for C10: on a concrete cache with index buffer 9 bound at
width `short`, the store/restore pair keeps handle 9 bound but leaves the
cached width unset. -/
theorem claim_C10_witness :
    ((({ freshCache with index_buffer := some 9, index_type := some IndexType.short }
        : GlCache).store_buffer_binding ELEMENT_ARRAY_BUFFER).restore_buffer_binding
        ELEMENT_ARRAY_BUFFER).1.index_buffer = some 9 ∧
    ((({ freshCache with index_buffer := some 9, index_type := some IndexType.short }
        : GlCache).store_buffer_binding ELEMENT_ARRAY_BUFFER).restore_buffer_binding
        ELEMENT_ARRAY_BUFFER).1.index_type = none :=
  ⟨((claim_C10_store_restore_clears_index_width _ 9 .short rfl rfl).1).1,
    ((claim_C10_store_restore_clears_index_width _ 9 .short rfl rfl).1).2.1⟩

/-!  ## Claim C7  -/

theorem store_buffer_binding_cur (c : GlCache) (t : Nat) :
    (c.store_buffer_binding t).cur_pipeline = c.cur_pipeline := by
  unfold GlCache.store_buffer_binding
  split <;> rfl

theorem restore_buffer_binding_cur (c : GlCache) (t : Nat) :
    ((c.restore_buffer_binding t).1).cur_pipeline = c.cur_pipeline := by
  unfold GlCache.restore_buffer_binding
  split
  · split
    · simpa using bind_buffer_fst_cur_pipeline c t _ none
    · rfl
  · split
    · simpa using bind_buffer_fst_cur_pipeline c t _ none
    · rfl

theorem storeBindRestore_cur (c : GlCache) (t handle : Nat) (itArg : Option IndexType)
    (upload : GlCall) : ((storeBindRestore c t handle itArg upload).1).cur_pipeline =
      c.cur_pipeline := by
  unfold storeBindRestore
  rw [restore_buffer_binding_cur, bind_buffer_fst_cur_pipeline, store_buffer_binding_cur]

theorem store_texture_binding_cur (c : GlCache) (slot : Fin 12) :
    (c.store_texture_binding slot).cur_pipeline = c.cur_pipeline := rfl

theorem restore_texture_binding_cur (c : GlCache) (slot : Fin 12) :
    ((c.restore_texture_binding slot).1).cur_pipeline = c.cur_pipeline :=
  bind_texture_fst_cur_pipeline c slot c.stored_texture

theorem texStoreBindRestore_cur (c : GlCache) (tex : Option Nat) :
    ((((c.store_texture_binding 0).bind_texture 0 tex).1.restore_texture_binding 0).1).cur_pipeline
      = c.cur_pipeline := by
  rw [restore_texture_binding_cur, bind_texture_fst_cur_pipeline, store_texture_binding_cur]

theorem buffer_update_cur (b : Buffer) (c : GlCache) (tSize count : Nat)
    (r : GlCache × List GlCall) (h : b.update c tSize count = some r) :
    r.1.cur_pipeline = c.cur_pipeline := by
  unfold Buffer.update at h
  rcases hbt : b.buffer_type
  · simp [hbt] at h
    rw [← h.2]
    exact storeBindRestore_cur _ _ _ _ _
  · rcases hb : b.index_type with _ | it
    · simp [hb, hbt] at h
    · rcases hf : IndexType.for_type tSize with _ | it'
      · simp [hb, hf, hbt] at h
      · by_cases he : it = it'
        · subst he
          simp [hb, hf, hbt] at h
          rw [← h.2]
          exact storeBindRestore_cur _ _ _ _ _
        · simp [hb, hf, hbt, he] at h

theorem texture_new_cur (c : GlCache) (bytes : Option Nat) (params : TextureParams)
    (kind : TextureKind) (handle : Nat) (r : GlCache × List GlCall × Texture)
    (h : Texture.new c bytes params kind handle = some r) :
    r.1.cur_pipeline = c.cur_pipeline := by
  unfold Texture.new at h
  rcases bytes with _ | len
  · injection h with h
    rw [← h]
    exact texStoreBindRestore_cur c (some handle)
  · by_cases hl : params.format.size params.width params.height = len
    · simp only [hl, beq_self_eq_true, if_pos, Option.some.injEq] at h
      rw [← h]
      exact texStoreBindRestore_cur c (some handle)
    · simp [hl] at h

theorem texture_update_part_cur (t : Texture) (c : GlCache) (x y z w hh d : Int)
    (len : Nat) (r : GlCache × List GlCall)
    (h : t.update_texture_part c x y z w hh d len = some r) :
    r.1.cur_pipeline = c.cur_pipeline := by
  unfold Texture.update_texture_part at h
  split at h
  · exact absurd h (by simp)
  · split at h
    · exact absurd h (by simp)
    · split at h
      · exact absurd h (by simp)
      · injection h with h
        rw [← h]
        exact texStoreBindRestore_cur c t.texture

theorem texture_update_cur (t : Texture) (c : GlCache) (len : Nat)
    (r : GlCache × List GlCall) (h : t.update c len = some r) :
    r.1.cur_pipeline = c.cur_pipeline := by
  unfold Texture.update at h
  split at h
  · exact absurd h (by simp)
  · exact texture_update_part_cur t c _ _ _ _ _ _ len r h

theorem set_filter_cur (t : Texture) (c : GlCache) :
    ((t.set_filter c).1).cur_pipeline = c.cur_pipeline :=
  texStoreBindRestore_cur c t.texture

theorem resizeCache_cur (c : GlCache) :
    ((Texture.resizeCache c).1).cur_pipeline = c.cur_pipeline := by
  unfold Texture.resizeCache
  rw [restore_texture_binding_cur, store_texture_binding_cur]

theorem setCullFaceCache_cur (c : GlCache) (cf : CullFace) :
    (setCullFaceCache c cf).cur_pipeline = c.cur_pipeline := by
  unfold setCullFaceCache
  split <;> rfl

theorem setColorWriteCache_cur (c : GlCache) (m : ColorMask) :
    (setColorWriteCache c m).cur_pipeline = c.cur_pipeline := by
  unfold setColorWriteCache
  split <;> rfl

theorem setStencilCache_cur (c : GlCache) (s : Option StencilState) :
    (setStencilCache c s).cur_pipeline = c.cur_pipeline := by
  unfold setStencilCache
  split <;> rfl

theorem setBlendCache_cur (c : GlCache) (cb ab : Option BlendState) (c' : GlCache)
    (h : setBlendCache c cb ab = some c') : c'.cur_pipeline = c.cur_pipeline := by
  unfold setBlendCache at h
  split at h
  · exact absurd h (by simp)
  · split at h
    · injection h with h
      rw [← h]
    · injection h with h
      rw [← h]

theorem bindImagesLoop_cur (si : List (Option Nat)) :
    ∀ (bi : List (Option Nat)) (n : Nat) (c : GlCache) (r : GlCache × List GlCall),
    bindImagesLoop si bi n c = some r → r.1.cur_pipeline = c.cur_pipeline := by
  induction si with
  | nil =>
    intro bi n c r h
    unfold bindImagesLoop at h
    injection h with h
    rw [← h]
  | cons head rest ih =>
    intro bi n c r h
    unfold bindImagesLoop at h
    split at h
    · exact absurd h (by simp)
    · split at h
      · split at h
        · rcases Option.map_eq_some'.mp h with ⟨rc, hrec, hf⟩
          rw [← hf]
          exact (ih bi (n + 1) _ _ hrec).trans (bind_texture_fst_cur_pipeline c _ _)
        · exact absurd h (by simp)
      · exact ih bi (n + 1) c r h

theorem applyAttrLoop_cur (pipLayout : List (Option VertexAttributeInternal))
    (vbs : List Buffer) (l : List (Fin 16)) :
    ∀ (c : GlCache) (r : GlCache × List GlCall),
    applyAttrLoop pipLayout vbs l c = some r → r.1.cur_pipeline = c.cur_pipeline := by
  induction l with
  | nil =>
    intro c r h
    unfold applyAttrLoop at h
    injection h with h
    rw [← h]
  | cons i l ih =>
    intro c r h
    unfold applyAttrLoop at h
    split at h
    · split at h
      · exact absurd h (by simp)
      · split at h
        · rcases Option.map_eq_some'.mp h with ⟨rc, hrec, hf⟩
          rw [← hf]
          exact (ih _ rc hrec).trans
            (by simpa using bind_buffer_fst_cur_pipeline c ARRAY_BUFFER _ _)
        · exact ih c r h
    · split at h
      · rcases Option.map_eq_some'.mp h with ⟨rc, hrec, hf⟩
        rw [← hf]
        simpa using ih _ rc hrec
      · exact ih c r h

theorem apply_bindings_cur (ctx : Context) (b : Bindings) (r : Context × List GlCall)
    (h : ctx.apply_bindings b = some r) :
    r.1.cache.cur_pipeline = ctx.cache.cur_pipeline := by
  unfold Context.apply_bindings at h
  split at h
  · exact absurd h (by simp)
  · split at h
    · exact absurd h (by simp)
    · split at h
      · exact absurd h (by simp)
      · split at h
        · exact absurd h (by simp)
        · split at h
          · exact absurd h (by simp)
          · injection h with h
            rw [← h]
            rename_i x1 c1 calls1 himg x0 c2 calls2 hattr
            exact (applyAttrLoop_cur _ _ _ _ _ hattr).trans
              ((bind_buffer_fst_cur_pipeline _ _ _ _).trans
                (bindImagesLoop_cur _ _ _ _ _ himg))

theorem with_params_cache (ctx : Context) (bufs : List BufferLayout)
    (attrs : List VertexAttribute) (locs : String → Option Nat) (si : Nat)
    (params : PipelineParams) (r : Context × Nat)
    (h : Pipeline.with_params ctx bufs attrs locs si params = some r) :
    r.1.cache = ctx.cache := by
  unfold Pipeline.with_params at h
  split at h
  · exact absurd h (by simp)
  · split at h
    · exact absurd h (by simp)
    · injection h with h
      rw [← h]

theorem shader_new_cache (ctx : Context) (drv : ShaderDriver) (meta : ShaderMeta) :
    (Shader.new ctx drv meta).1.cache = ctx.cache := by
  unfold Shader.new
  split
  split <;> rfl

theorem end_render_pass_cur (ctx : Context) :
    ctx.end_render_pass.1.cache.cur_pipeline = ctx.cache.cur_pipeline :=
  (bind_buffer_fst_cur_pipeline _ _ _ _).trans (bind_buffer_fst_cur_pipeline _ _ _ _)

theorem commit_frame_cur (ctx : Context) :
    ctx.commit_frame.1.cache.cur_pipeline = ctx.cache.cur_pipeline :=
  ((clearTextureFold_other _ _).2.2).trans (clear_buffer_bindings_fields _).2.2.2

theorem step_preserves_cur (o : Op) (ho : o.isApplyPipeline = false) :
    ∀ (ctx ctx' : Context), ctx.step o = some ctx' →
    ctx'.cache.cur_pipeline = ctx.cache.cur_pipeline := by
  cases o with
  | applyPipeline p => intro ctx ctx' h; simp [Op.isApplyPipeline] at ho
  | applyBindings b =>
    intro ctx ctx' h
    simp only [Context.step] at h
    rcases Option.map_eq_some'.mp h with ⟨r, hr, hf⟩
    rw [← hf]
    exact apply_bindings_cur ctx b r hr
  | applyUniforms size =>
    intro ctx ctx' h
    simp only [Context.step] at h
    rcases Option.map_eq_some'.mp h with ⟨r, hr, hf⟩
    rw [← hf]
  | beginDefaultPass =>
    intro ctx ctx' h
    injection h with h
    rw [← h]
  | applyViewport =>
    intro ctx ctx' h
    injection h with h
    rw [← h]
  | applyScissorRect =>
    intro ctx ctx' h
    injection h with h
    rw [← h]
  | clear =>
    intro ctx ctx' h
    injection h with h
    rw [← h]
  | endRenderPass =>
    intro ctx ctx' h
    injection h with h
    rw [← h]
    exact end_render_pass_cur ctx
  | commitFrame =>
    intro ctx ctx' h
    injection h with h
    rw [← h]
    exact commit_frame_cur ctx
  | draw b0 n0 i0 =>
    intro ctx ctx' h
    simp only [Context.step] at h
    rcases Option.map_eq_some'.mp h with ⟨r, _, hf⟩
    rw [← hf]
  | setCullFace cf =>
    intro ctx ctx' h
    injection h with h
    rw [← h]
    exact setCullFaceCache_cur ctx.cache cf
  | setBlend cb ab =>
    intro ctx ctx' h
    simp only [Context.step] at h
    rcases Option.map_eq_some'.mp h with ⟨c', hc, hf⟩
    rw [← hf]
    exact setBlendCache_cur ctx.cache cb ab c' hc
  | setStencil s =>
    intro ctx ctx' h
    injection h with h
    rw [← h]
    exact setStencilCache_cur ctx.cache s
  | setColorWrite m =>
    intro ctx ctx' h
    injection h with h
    rw [← h]
    exact setColorWriteCache_cur ctx.cache m
  | bufferNew target handle itype =>
    intro ctx ctx' h
    injection h with h
    rw [← h]
    exact storeBindRestore_cur ctx.cache target handle itype (.bufferData target)
  | bufferUpdate b tSize count =>
    intro ctx ctx' h
    simp only [Context.step] at h
    rcases Option.map_eq_some'.mp h with ⟨r, hr, hf⟩
    rw [← hf]
    exact buffer_update_cur b ctx.cache tSize count r hr
  | textureNew bytes params kind handle =>
    intro ctx ctx' h
    simp only [Context.step] at h
    rcases Option.map_eq_some'.mp h with ⟨r, hr, hf⟩
    rw [← hf]
    exact texture_new_cur ctx.cache bytes params kind handle r hr
  | textureUpdate t len =>
    intro ctx ctx' h
    simp only [Context.step] at h
    rcases Option.map_eq_some'.mp h with ⟨r, hr, hf⟩
    rw [← hf]
    exact texture_update_cur t ctx.cache len r hr
  | textureUpdatePart t x y z w hh d len =>
    intro ctx ctx' h
    simp only [Context.step] at h
    rcases Option.map_eq_some'.mp h with ⟨r, hr, hf⟩
    rw [← hf]
    exact texture_update_part_cur t ctx.cache x y z w hh d len r hr
  | textureSetFilter t =>
    intro ctx ctx' h
    injection h with h
    rw [← h]
    exact set_filter_cur t ctx.cache
  | textureResize =>
    intro ctx ctx' h
    injection h with h
    rw [← h]
    exact resizeCache_cur ctx.cache
  | shaderNew drv meta =>
    intro ctx ctx' h
    injection h with h
    rw [← h]
    rw [show (Shader.new ctx drv meta).1.cache = ctx.cache from shader_new_cache ctx drv meta]
  | pipelineNew bufs attrs locs si params =>
    intro ctx ctx' h
    simp only [Context.step] at h
    split at h
    · exact absurd h (by simp)
    · injection h with h
      rw [← h]
      rename_i ctx2 n hwp
      have hc := with_params_cache ctx bufs attrs locs si params (ctx2, n) hwp
      simp only at hc
      rw [hc]

theorem run_preserves_cur (ops : List Op) :
    ∀ (ctx ctx' : Context), (∀ o ∈ ops, o.isApplyPipeline = false) →
    ctx.run ops = some ctx' → ctx'.cache.cur_pipeline = ctx.cache.cur_pipeline := by
  induction ops with
  | nil =>
    intro ctx ctx' _ h
    unfold Context.run at h
    injection h with h
    rw [← h]
  | cons o rest ih =>
    intro ctx ctx' hall h
    unfold Context.run at h
    rcases hstep : ctx.step o with _ | ctx1
    · rw [hstep] at h
      exact absurd h (by simp)
    · rw [hstep] at h
      exact (ih ctx1 ctx' (fun o' ho' => hall o' (List.mem_cons_of_mem o ho')) h).trans
        (step_preserves_cur o (hall o (List.mem_cons_self o rest)) ctx ctx1 hstep)

/-- Claim C7: `draw` fails (issuing no native draw call) on every context
reached from a fresh one by a sequence of public operations containing no
`apply_pipeline`, and on every context whose cached index element width
is unset; when a current pipeline and a cached index width are both
present it issues exactly one native instanced indexed draw whose
index-buffer byte offset is `element_width × base_element`. -/
theorem claim_C7_draw_requires_pipeline_and_width :
    (∀ (fb : Option Nat) (ops : List Op) (ctx' : Context),
      (∀ o ∈ ops, o.isApplyPipeline = false) →
      (freshContext fb).run ops = some ctx' →
      ∀ b0 n0 i0 : Int, ctx'.draw b0 n0 i0 = none) ∧
    (∀ (ctx : Context) (b0 n0 i0 : Int), ctx.cache.index_type = none →
      ctx.draw b0 n0 i0 = none) ∧
    (∀ (ctx : Context) (p : Nat) (pip : PipelineInternal) (it : IndexType)
      (b0 n0 i0 : Int), ctx.cache.cur_pipeline = some p →
      ctx.pipelines.get? p = some pip → ctx.cache.index_type = some it →
      ctx.draw b0 n0 i0 = some (.drawElementsInstanced pip.params.primitive_type.toGl
        n0 it.toGl ((it.size : Int) * b0) i0)) := by
  refine ⟨?_, ?_, ?_⟩
  · intro fb ops ctx' hall hrun b0 n0 i0
    exact draw_none_of_no_pipeline ctx' (run_preserves_cur ops _ _ hall hrun) b0 n0 i0
  · intro ctx b0 n0 i0 hit
    exact draw_none_of_index_type_none ctx hit b0 n0 i0
  · intro ctx p pip it b0 n0 i0 hp hpip hit
    unfold Context.draw
    simp only [hp, hpip, hit]

/-- Witness for C7: the empty trace from a fresh context contains no
`apply_pipeline` and leaves `draw` failing; on a fully prepared concrete
context, `draw(2, 6, 1)` over a `short` index buffer issues one native
draw at byte offset 4. -/
theorem claim_C7_witness :
    (freshContext none).draw 0 3 1 = none ∧
    ctxDrawReady.draw 2 6 1 =
      some (.drawElementsInstanced GL_TRIANGLES 6 GL_UNSIGNED_SHORT 4 1) := by
  constructor
  · exact claim_C7_draw_requires_pipeline_and_width.1 none [] (freshContext none)
      (fun o ho => absurd ho (List.not_mem_nil o)) rfl 0 3 1
  · have h := claim_C7_draw_requires_pipeline_and_width.2.2 ctxDrawReady 0
      { layout := [], shaderIdx := 0, params := PipelineParams.default } .short
      2 6 1 rfl rfl rfl
    rw [h]
    decide

/-!  ## Claim C1  -/

/-- Claim C1 (code bug): the spec requires `apply_uniforms` to fail by
assertion before issuing any upload whenever the uniform block's declared
byte size exceeds the struct's byte size.  At the failing input — one
`Float4` uniform (16 declared bytes, location present) against an 8-byte
struct — the source's guard `offset <= size - uniform_type.size() / 4`
compares a 4-byte-word offset against a byte count (`0 <= 8 - 4` holds),
so the assertion passes and the out-of-bounds `float4` upload is issued. -/
theorem claim_C1_undersized_struct_upload_issued :
    uniformsByteSize [⟨some 0, .Float4, 1⟩] = 16 ∧ 16 > 8 ∧
    ctxFloat4.apply_uniforms_from_bytes 8 = some [.uniformFloat 4 0 0 4] :=
  ⟨rfl, by decide, rfl⟩

/-!  ## Claim C2  -/

/-- Claim C2 (code bug): the spec requires the native upload call to
match each uniform's declared type — an `int4` upload for `Int4`.  The
source's `Int4` arm (src/lib.rs line 429) instead calls
`uniform_3_i32_slice`, a three-component int upload, over
`array_count * 4` ints: at the failing input (one `Int4` uniform at
location 7, a 16-byte struct) the call issued is the 3-component upload,
which differs from the 4-component one the claim requires.  All other
aspects (running word offset, offset advance, skip on absent location)
behave as claimed. -/
theorem claim_C2_int4_issues_int3_upload :
    ctxInt4.apply_uniforms_from_bytes 16 = some [.uniformInt 3 7 0 4] ∧
    (GlCall.uniformInt 3 7 0 4 ≠ .uniformInt 4 7 0 4) :=
  ⟨rfl, by decide⟩

/-!  ## Claim C8  -/

theorem computeStridesChecked_eq_unchecked (attrs : List VertexAttribute) :
    ∀ (bufs : List BufferLayout) (cache cache' : List BufferCacheData),
    computeStridesChecked attrs bufs cache = some cache' →
    computeStrides attrs bufs cache = cache' := by
  induction attrs with
  | nil =>
    intro bufs cache cache' h
    unfold computeStridesChecked at h
    injection h
  | cons a rest ih =>
    intro bufs cache cache' h
    unfold computeStridesChecked at h
    unfold computeStrides
    split at h
    · split at h
      · exact ih bufs _ cache' h
      · exact absurd h (by simp)
    · exact absurd h (by simp)

theorem computeStridesChecked_bounded (attrs : List VertexAttribute) :
    ∀ (bufs : List BufferLayout) (cache cache' : List BufferCacheData),
    computeStridesChecked attrs bufs cache = some cache' →
    (∀ cd ∈ cache, cd.stride ≤ 255) → ∀ cd ∈ cache', cd.stride ≤ 255 := by
  induction attrs with
  | nil =>
    intro bufs cache cache' h hall
    unfold computeStridesChecked at h
    injection h with h
    rw [← h]
    exact hall
  | cons a rest ih =>
    intro bufs cache cache' h hall
    unfold computeStridesChecked at h
    split at h
    · split at h
      · rename_i layout cd hb hc hle
        refine ih bufs _ cache' h ?_
        intro x hx
        rcases List.mem_or_eq_of_mem_set hx with hx | hx
        · exact hall x hx
        · rw [hx]
          exact hle
      · exact absurd h (by simp)
    · exact absurd h (by simp)

/-- Claim C8: whenever the computed per-buffer stride of a buffer (as
accumulated over the attribute list) exceeds 255, pipeline construction
fails by assertion; hence every successfully constructed pipeline has
every computed per-buffer stride at most 255 (the contrapositive). -/
theorem claim_C8_stride_over_255_fails (ctx : Context) (bufs : List BufferLayout)
    (attrs : List VertexAttribute) (locs : String → Option Nat) (si : Nat)
    (params : PipelineParams) (b : Nat) (cd : BufferCacheData)
    (hcd : (computeStrides attrs bufs (List.replicate bufs.length ⟨0, 0⟩)).get? b = some cd)
    (hgt : 255 < cd.stride) :
    Pipeline.with_params ctx bufs attrs locs si params = none := by
  unfold Pipeline.with_params
  rcases hsh : ctx.shaders.get? si with _ | sh
  · simp [hsh]
  · have hwl : withParamsLayout bufs attrs locs = none := by
      unfold withParamsLayout
      rcases hck : computeStridesChecked attrs bufs (List.replicate bufs.length ⟨0, 0⟩)
        with _ | cache
      · simp
      · exfalso
        have heq := computeStridesChecked_eq_unchecked attrs bufs _ cache hck
        rw [heq] at hcd
        have hmem : cd ∈ cache := List.get?_mem hcd
        have hb255 := computeStridesChecked_bounded attrs bufs _ cache hck
          (fun x hx => by rw [List.eq_of_mem_replicate hx]; decide) cd hmem
        omega
    simp [hsh, hwl]

/-- Witness for C8: one buffer of declared stride 0 carrying four `Mat4`
attributes accumulates stride 256 > 255, and construction fails. -/
theorem claim_C8_witness :
    (computeStrides [⟨"m0", .Mat4, 0⟩, ⟨"m1", .Mat4, 0⟩, ⟨"m2", .Mat4, 0⟩, ⟨"m3", .Mat4, 0⟩]
      [⟨0, .PerVertex, 1⟩] (List.replicate 1 ⟨0, 0⟩)).get? 0 =
        some { stride := 256, offset := 0 } ∧
    Pipeline.with_params ctxDrawReady [⟨0, .PerVertex, 1⟩]
      [⟨"m0", .Mat4, 0⟩, ⟨"m1", .Mat4, 0⟩, ⟨"m2", .Mat4, 0⟩, ⟨"m3", .Mat4, 0⟩]
      (fun _ => some 0) 0 PipelineParams.default = none :=
  ⟨by decide,
    claim_C8_stride_over_255_fails ctxDrawReady _ _ _ 0 PipelineParams.default 0
      { stride := 256, offset := 0 } (by decide) (by decide)⟩

/-!  ## Claim C4  -/

theorem attrSlots_eq_one (f : VertexFormat) (h : f ≠ .Mat4) : f.attrSlots = 1 := by
  cases f <;> first | rfl | exact absurd rfl h

theorem ne_mat4_of_byte_len (f : VertexFormat) (h : f.byte_len ≠ 64) : f ≠ .Mat4 := by
  intro e
  rw [e] at h
  exact h (by decide)

theorem innerLoop_one (attr_loc : Option Nat) (fmt : VertexFormat) (bi : Nat)
    (divisor stride : Int) (i : Nat) (offset : Int)
    (vl : List (Option VertexAttributeInternal)) :
    innerLoop attr_loc fmt bi divisor stride 1 i offset vl =
      match attr_loc with
      | some base =>
        if base + i < vl.length then
          some (offset + fmt.byte_len, vl.set (base + i) (some
            { attr_loc := base + i, size := fmt.size, type_ := fmt.type_, offset := offset,
              stride := stride, buffer_index := bi, divisor := divisor }))
        else none
      | none => some (offset + fmt.byte_len, vl) := by
  cases attr_loc with
  | none => rfl
  | some base =>
    show (if base + i < vl.length then
        innerLoop (some base) fmt bi divisor stride 0 (i + 1) (offset + fmt.byte_len)
          (vl.set (base + i) (some
            { attr_loc := base + i, size := fmt.size, type_ := fmt.type_, offset := offset,
              stride := stride, buffer_index := bi, divisor := divisor }))
      else none) =
      (if base + i < vl.length then
        some (offset + fmt.byte_len, vl.set (base + i) (some
          { attr_loc := base + i, size := fmt.size, type_ := fmt.type_, offset := offset,
            stride := stride, buffer_index := bi, divisor := divisor }))
      else none)
    split <;> rfl

/-- Claim C4: for a pipeline built from a single buffer layout of
declared stride 0 and three attributes of byte lengths 8, 4 and 16 (in
that declaration order, all resolved to native locations inside the
allocated slot table), the resolved per-attribute byte offsets are 0, 8
and 12 and the recorded per-buffer stride of every one of the three
attributes is 28: offsets accumulate strictly in attribute-declaration
order per buffer. -/
theorem claim_C4_offsets_accumulate (sf : VertexStep) (sr : Int) (n1 n2 n3 : String)
    (f1 f2 f3 : VertexFormat) (locs : String → Option Nat) (l1 l2 l3 : Nat)
    (hb1 : f1.byte_len = 8) (hb2 : f2.byte_len = 4) (hb3 : f3.byte_len = 16)
    (hl1 : locs n1 = some l1) (hl2 : locs n2 = some l2) (hl3 : locs n3 = some l3)
    (h1 : l1 < 3) (h2 : l2 < 3) (h3 : l3 < 3)
    (h12 : l1 ≠ l2) (h13 : l1 ≠ l3) (h23 : l2 ≠ l3) :
    ∃ (vl : List (Option VertexAttributeInternal)) (a1 a2 a3 : VertexAttributeInternal),
      withParamsLayout [⟨0, sf, sr⟩] [⟨n1, f1, 0⟩, ⟨n2, f2, 0⟩, ⟨n3, f3, 0⟩] locs = some vl ∧
      vl[l1]? = some (some a1) ∧ a1.offset = 0 ∧ a1.stride = 28 ∧
      vl[l2]? = some (some a2) ∧ a2.offset = 8 ∧ a2.stride = 28 ∧
      vl[l3]? = some (some a3) ∧ a3.offset = 12 ∧ a3.stride = 28 := by
  have hne1 := ne_mat4_of_byte_len f1 (by rw [hb1]; decide)
  have hne2 := ne_mat4_of_byte_len f2 (by rw [hb2]; decide)
  have hne3 := ne_mat4_of_byte_len f3 (by rw [hb3]; decide)
  refine ⟨(((List.replicate 3 (none : Option VertexAttributeInternal)).set l1 (some
      { attr_loc := l1, size := f1.size, type_ := f1.type_, offset := 0, stride := 28,
        buffer_index := 0, divisor := if sf = .PerVertex then 0 else sr })).set l2 (some
      { attr_loc := l2, size := f2.size, type_ := f2.type_, offset := 8, stride := 28,
        buffer_index := 0, divisor := if sf = .PerVertex then 0 else sr })).set l3 (some
      { attr_loc := l3, size := f3.size, type_ := f3.type_, offset := 12, stride := 28,
        buffer_index := 0, divisor := if sf = .PerVertex then 0 else sr }),
    { attr_loc := l1, size := f1.size, type_ := f1.type_, offset := 0, stride := 28,
      buffer_index := 0, divisor := if sf = .PerVertex then 0 else sr },
    { attr_loc := l2, size := f2.size, type_ := f2.type_, offset := 8, stride := 28,
      buffer_index := 0, divisor := if sf = .PerVertex then 0 else sr },
    { attr_loc := l3, size := f3.size, type_ := f3.type_, offset := 12, stride := 28,
      buffer_index := 0, divisor := if sf = .PerVertex then 0 else sr },
    ?_, ?_, rfl, rfl, ?_, rfl, rfl, ?_, rfl, rfl⟩
  · simp [withParamsLayout, computeStridesChecked, secondLoop, innerLoop_one, newStrideOf,
      attributesLenOf, VertexFormat.attrSlots, attrSlots_eq_one f1 hne1,
      attrSlots_eq_one f2 hne2, attrSlots_eq_one f3 hne3,
      hb1, hb2, hb3, hl1, hl2, hl3, hne1, hne2, hne3, h1, h2, h3,
      List.get?, List.set, List.replicate]
  · rw [List.getElem?_set_ne (Ne.symm h13), List.getElem?_set_ne (Ne.symm h12),
      List.getElem?_set_eq_of_lt]
    simpa using h1
  · rw [List.getElem?_set_ne (Ne.symm h23), List.getElem?_set_eq_of_lt]
    rw [List.length_set]
    simpa using h2
  · rw [List.getElem?_set_eq_of_lt]
    rw [List.length_set, List.length_set]
    simpa using h3

/-- Witness for C4 at a concrete input: attributes `Float2`, `Float1`,
`Float4` (byte lengths 8, 4, 16) at locations 0, 1, 2 over one zero-stride
buffer resolve to offsets 0, 8, 12 with stride 28 each. -/
theorem claim_C4_witness :
    ∃ (vl : List (Option VertexAttributeInternal)) (a1 a2 a3 : VertexAttributeInternal),
      withParamsLayout [⟨0, .PerVertex, 1⟩]
        [⟨"pos", .Float2, 0⟩, ⟨"w", .Float1, 0⟩, ⟨"col", .Float4, 0⟩]
        (fun s => if s = "pos" then some 0 else if s = "w" then some 1 else some 2) =
          some vl ∧
      vl[0]? = some (some a1) ∧ a1.offset = 0 ∧ a1.stride = 28 ∧
      vl[1]? = some (some a2) ∧ a2.offset = 8 ∧ a2.stride = 28 ∧
      vl[2]? = some (some a3) ∧ a3.offset = 12 ∧ a3.stride = 28 :=
  claim_C4_offsets_accumulate .PerVertex 1 "pos" "w" "col" .Float2 .Float1 .Float4
    _ 0 1 2 rfl rfl rfl (by decide) (by decide) (by decide)
    (by decide) (by decide) (by decide) (by decide) (by decide) (by decide)

/-!  ## Claim C6  -/

theorem asU32_asI32 (n : Nat) : asU32 (asI32 n) = n % 4294967296 := by
  unfold asU32 asI32
  split <;> omega

theorem size_eq (f : TextureFormat) (w h : Nat) :
    f.size w h = f.bytesPerPixel * (w * h) % 4294967296 := by
  unfold TextureFormat.size
  rw [Nat.mul_mod_mod]

theorem size_3d_eq (f : TextureFormat) (w h d : Nat) :
    f.size_3d w h d = f.bytesPerPixel * (w * h * d) % 18446744073709551616 := by
  unfold TextureFormat.size_3d
  rw [Nat.mul_mod_mod]

theorem update_isSome_iff (t : Texture) (c : GlCache) (len : Nat)
    (hw : t.width < 4294967296) (hh : t.height < 4294967296) (hd : t.depth < 4294967296) :
    (t.update c len).isSome = true ↔ t.sizeBytes t.width t.height t.depth = len := by
  have hrw : asU32 (asI32 t.width) = t.width := by rw [asU32_asI32, Nat.mod_eq_of_lt hw]
  have hrh : asU32 (asI32 t.height) = t.height := by rw [asU32_asI32, Nat.mod_eq_of_lt hh]
  have hrd : asU32 (asI32 t.depth) = t.depth := by rw [asU32_asI32, Nat.mod_eq_of_lt hd]
  unfold Texture.update Texture.update_texture_part
  by_cases hsz : t.sizeBytes t.width t.height t.depth = len
  · rw [if_neg (not_not_intro hsz), hrw, hrh, hrd, if_neg (not_not_intro hsz),
      if_neg (not_not_intro (by simp)), if_neg (not_not_intro (by simp))]
    simp [hsz]
  · rw [if_pos hsz]
    simp [hsz]

theorem new_isSome_iff (c : GlCache) (len : Nat) (params : TextureParams)
    (kind : TextureKind) (handle : Nat) :
    (Texture.new c (some len) params kind handle).isSome = true ↔
      params.format.size params.width params.height = len := by
  unfold Texture.new
  by_cases hl : params.format.size params.width params.height = len
  · simp [hl]
  · simp [hl]

/-- Counterexample to C6 as stated: `Texture::new` with pixel bytes
checks only the two-dimensional size `format.size(width, height)`
(src/texture.rs lines 177-182), ignoring `depth` and `kind`.  For a
`Texture3D` RGBA8 texture of extent 1×1×2, a 4-byte slice passes the
creation check although 4 ≠ 1·1·2·4, where the claim requires an
assertion failure. -/
theorem claim_C6_counterexample :
    (Texture.new freshCache (some 4)
      { format := .RGBA8, wrap := .Clamp, filter := .Linear, width := 1, height := 1, depth := 2 } .Texture3D 5).isSome = true ∧
    (4 : Nat) ≠ 1 * 1 * 2 * 4 :=
  ⟨rfl, by decide⟩

/-- Claim C6 as amended: `Texture::update` fails via assertion iff the
byte length differs from width×height×(depth, for 3D and 2D-array
kinds)×bytes-per-pixel, the product computed in the source's wrapping
machine arithmetic (32-bit for 2D, 64-bit otherwise) — exact whenever the
product is in range, as in the RGBA8 2D special case; `Texture::new` with
supplied bytes checks only width×height×bytes-per-pixel, ignoring depth
and kind; `update_texture_part` only succeeds when the byte length
matches the kind-aware size of the updated region (it additionally
asserts region bounds). -/
theorem claim_C6_amended_length_checks :
    (∀ (t : Texture) (c : GlCache) (len : Nat),
      t.width < 4294967296 → t.height < 4294967296 → t.depth < 4294967296 →
      t.kind = .Texture2D →
      ((t.update c len).isSome = true ↔
        len = t.format.bytesPerPixel * (t.width * t.height) % 4294967296)) ∧
    (∀ (t : Texture) (c : GlCache) (len : Nat),
      t.width < 4294967296 → t.height < 4294967296 → t.depth < 4294967296 →
      (t.kind = .Texture3D ∨ t.kind = .Texture2DArray) →
      ((t.update c len).isSome = true ↔
        len = t.format.bytesPerPixel * (t.width * t.height * t.depth) %
          18446744073709551616)) ∧
    (∀ (c : GlCache) (len : Nat) (params : TextureParams) (kind : TextureKind)
      (handle : Nat),
      ((Texture.new c (some len) params kind handle).isSome = true ↔
        len = params.format.bytesPerPixel * (params.width * params.height) % 4294967296)) ∧
    (∀ (t : Texture) (c : GlCache) (len : Nat),
      t.width < 4294967296 → t.height < 4294967296 → t.depth < 4294967296 →
      t.kind = .Texture2D → t.format = .RGBA8 → 4 * (t.width * t.height) < 4294967296 →
      ((t.update c len).isSome = true ↔ len = t.width * t.height * 4)) ∧
    (∀ (t : Texture) (c : GlCache) (x y z w hh d : Int) (len : Nat),
      (t.update_texture_part c x y z w hh d len).isSome = true →
      t.sizeBytes (asU32 w) (asU32 hh) (asU32 d) = len) := by
  refine ⟨?_, ?_, ?_, ?_, ?_⟩
  · intro t c len hw hh hd hk
    rw [update_isSome_iff t c len hw hh hd]
    unfold Texture.sizeBytes
    rw [hk]
    rw [size_eq]
    exact eq_comm
  · intro t c len hw hh hd hk
    rw [update_isSome_iff t c len hw hh hd]
    unfold Texture.sizeBytes
    rcases hk with hk | hk <;> rw [hk] <;> rw [size_3d_eq] <;> exact eq_comm
  · intro c len params kind handle
    rw [new_isSome_iff, size_eq]
    exact eq_comm
  · intro t c len hw hh hd hk hfmt hrange
    rw [update_isSome_iff t c len hw hh hd]
    unfold Texture.sizeBytes
    rw [hk, size_eq, hfmt]
    show 4 * (t.width * t.height) % 4294967296 = len ↔ _
    rw [Nat.mod_eq_of_lt hrange, Nat.mul_comm]
    exact eq_comm
  · intro t c x y z w hh d len hs
    unfold Texture.update_texture_part at hs
    by_cases hc : t.sizeBytes (asU32 w) (asU32 hh) (asU32 d) ≠ len
    · rw [if_pos hc] at hs
      simp at hs
    · exact not_not.mp hc

/-- Witness for the amended C6: an RGBA8 2×2 2D texture accepts exactly a
16-byte update and the creation check accepts the matching 2-D size. -/
theorem claim_C6_witness :
    ((({ texture := some 3, width := 2, height := 2, depth := 1, format := .RGBA8, kind := .Texture2D } : Texture).update freshCache 16).isSome = true) ∧
    ((Texture.new freshCache (some 16)
      { format := .RGBA8, wrap := .Clamp, filter := .Linear, width := 2, height := 2, depth := 1 } .Texture2D 5).isSome = true) := by
  constructor
  · exact (claim_C6_amended_length_checks.2.2.2.1
      { texture := some 3, width := 2, height := 2, depth := 1, format := .RGBA8, kind := .Texture2D } freshCache 16
      (by decide) (by decide) (by decide) rfl rfl (by decide)).mpr (by decide)
  · exact (claim_C6_amended_length_checks.2.2.1 freshCache 16
      { format := .RGBA8, wrap := .Clamp, filter := .Linear, width := 2, height := 2, depth := 1 } .Texture2D 5).mpr (by decide)

/-!  ## Claim C9  -/

/-- Counterexample to C9 as stated: on a link failure the program object
created during construction is NOT deleted before the error is returned —
`load_shader_internal` (src/shader_impl.rs lines 106-112) deletes the two
shader objects but issues no `delete_program`.  On a driver where both
stages compile and the link fails, the trace contains `create_program 3`
and no `delete_program 3`. -/
theorem claim_C9_counterexample :
    (load_shader_internal drvLinkFail { uniforms := [], images := [] }).2 =
      .error (.LinkError "link failed") ∧
    GlCall.createProgram 3 ∈ (load_shader_internal drvLinkFail
      { uniforms := [], images := [] }).1 ∧
    GlCall.deleteProgram 3 ∉ (load_shader_internal drvLinkFail
      { uniforms := [], images := [] }).1 ∧
    GlCall.deleteShader 1 ∈ (load_shader_internal drvLinkFail
      { uniforms := [], images := [] }).1 ∧
    GlCall.deleteShader 2 ∈ (load_shader_internal drvLinkFail
      { uniforms := [], images := [] }).1 :=
  ⟨rfl, by decide, by decide, by decide, by decide⟩

/-- Claim C9 as amended: shader creation is the only fallible
resource-creation operation — it alone returns a recoverable typed error
and never aborts, whatever the driver reports (its step always yields a
context, failures surfacing only as the returned error value), while
buffer creation always succeeds and the remaining creation paths can
only abort by panic, never yielding a recoverable error — and the error
type has exactly the variants compilation-failure (stage + driver log),
link-failure (driver log) and embedded-null-byte; on a link failure the
two intermediate shader objects are deleted before the error is returned
but the program object is not; the context's shader table is unchanged on
every error and a shader is appended exactly on success. -/
theorem claim_C9_amended_shader_creation :
    (∀ (ctx : Context) (drv : ShaderDriver) (meta : ShaderMeta),
      ctx.step (.shaderNew drv meta) = some (Shader.new ctx drv meta).1) ∧
    (∀ (ctx : Context) (target handle : Nat) (itype : Option IndexType),
      (ctx.step (.bufferNew target handle itype)).isSome = true) ∧
    (∀ e : ShaderError,
      (∃ st msg, e = .CompilationError st msg) ∨ (∃ msg, e = .LinkError msg) ∨
      e = .FFINulError) ∧
    (∀ (ctx : Context) (drv : ShaderDriver) (meta : ShaderMeta),
      drv.vertexOk = true → drv.fragmentOk = true → drv.linkOk = false →
      (load_shader_internal drv meta).2 = .error (.LinkError drv.linkLog) ∧
      GlCall.deleteShader drv.vertexHandle ∈ (load_shader_internal drv meta).1 ∧
      GlCall.deleteShader drv.fragmentHandle ∈ (load_shader_internal drv meta).1 ∧
      (drv.programHandle ≠ drv.vertexHandle → drv.programHandle ≠ drv.fragmentHandle →
        GlCall.deleteProgram drv.programHandle ∉ (load_shader_internal drv meta).1) ∧
      (Shader.new ctx drv meta).1.shaders = ctx.shaders) ∧
    (∀ (ctx : Context) (drv : ShaderDriver) (meta : ShaderMeta),
      drv.vertexOk = false →
      (Shader.new ctx drv meta).2.2 = .error (.CompilationError .Vertex drv.vertexLog) ∧
      (Shader.new ctx drv meta).1.shaders = ctx.shaders) ∧
    (∀ (ctx : Context) (drv : ShaderDriver) (meta : ShaderMeta),
      drv.vertexOk = true → drv.fragmentOk = false →
      (Shader.new ctx drv meta).2.2 = .error (.CompilationError .Fragment drv.fragmentLog) ∧
      (Shader.new ctx drv meta).1.shaders = ctx.shaders) ∧
    (∀ (ctx : Context) (drv : ShaderDriver) (meta : ShaderMeta) (s : ShaderInternal),
      (load_shader_internal drv meta).2 = .ok s →
      (Shader.new ctx drv meta).1.shaders = ctx.shaders ++ [s] ∧
      (Shader.new ctx drv meta).2.2 = .ok ctx.shaders.length) := by
  refine ⟨?_, ?_, ?_, ?_, ?_, ?_, ?_⟩
  · intro ctx drv meta
    rfl
  · intro ctx target handle itype
    rfl
  · intro e
    rcases e with ⟨st, msg⟩ | msg | _
    · exact Or.inl ⟨st, msg, rfl⟩
    · exact Or.inr (Or.inl ⟨msg, rfl⟩)
    · exact Or.inr (Or.inr rfl)
  · intro ctx drv meta hv hf hl
    unfold Shader.new load_shader_internal load_shader
    simp [hv, hf, hl]
  · intro ctx drv meta hv
    unfold Shader.new load_shader_internal load_shader
    simp [hv]
  · intro ctx drv meta hv hf
    unfold Shader.new load_shader_internal load_shader
    simp [hv, hf]
  · intro ctx drv meta s hok
    unfold Shader.new
    rcases hli : load_shader_internal drv meta with ⟨calls, res⟩
    rw [hli] at hok
    simp only at hok
    rw [hok]
    exact ⟨rfl, rfl⟩

/-- Witness for the amended C9: shader creation on the concrete
link-failing driver does not abort a fresh context's trace, its error
carries the driver log, the shader table stays empty, and on an
all-success driver the shader is appended at index 0. -/
theorem claim_C9_witness :
    ((freshContext none).step (.shaderNew drvLinkFail
      { uniforms := [], images := [] })).isSome = true ∧
    (Shader.new (freshContext none) drvLinkFail
      { uniforms := [], images := [] }).1.shaders = [] ∧
    (Shader.new (freshContext none)
      { vertexOk := true, vertexLog := "", fragmentOk := true, fragmentLog := "", linkOk := true, linkLog := "", vertexHandle := 1, fragmentHandle := 2, programHandle := 3, uniformLoc := fun _ => none }
      { uniforms := [], images := [] }).2.2 = .ok 0 := by
  refine ⟨?_, ?_, ?_⟩
  · rw [claim_C9_amended_shader_creation.1 (freshContext none) drvLinkFail
      { uniforms := [], images := [] }]
    rfl
  · exact (claim_C9_amended_shader_creation.2.2.2.1 (freshContext none) drvLinkFail
      { uniforms := [], images := [] } rfl rfl rfl).2.2.2.2
  · exact (claim_C9_amended_shader_creation.2.2.2.2.2.2 (freshContext none)
      { vertexOk := true, vertexLog := "", fragmentOk := true, fragmentLog := "", linkOk := true, linkLog := "", vertexHandle := 1, fragmentHandle := 2, programHandle := 3, uniformLoc := fun _ => none }
      { uniforms := [], images := [] } { program := 3, images := [], uniforms := [] } rfl).2

end GlPipelines
